import Mathlib

/-! # Aero Trust booking manager (`src/js/booking.js`)

A shallow embedding of the booking script: fare estimation, the persisted
booking list with its confirm / edit / delete handlers, list filtering and
pagination, seat-map generation and seat selection, the CSV export, and the
loading of the list from stored text.

Conventions of the embedding.

* A JavaScript string is the list of its UTF-16 code units (`JSString`);
  `includes`, `join`, `===` and `String.fromCharCode` act on code units.
* A JavaScript number is an exact integer or rational; `none` stands for
  `NaN` where a computation can produce it.  Rounding of IEEE doubles and
  infinities are outside the embedding.
* `localStorage` is a record of its two keys, each absent (`none`) or holding
  the value that `JSON.parse` reads back.
* `Date.now()`, `Math.random()` and `Number.prototype.toLocaleString` are
  inputs of the functions that call them.
* Where the text under `aeroBookings` matters, it is classified by what
  `JSON.parse` does with it (`StoredText`), and a thrown exception is an
  `Except.error`.
-/

namespace AeroTrust

/-! ## Strings -/

/-- A JavaScript string: its UTF-16 code units, in order. -/
abbrev JSString := List ℕ

/-- The code units of a source literal (all literals of the script are in the
Basic Multilingual Plane, one unit per character). -/
def lit (s : String) : JSString := s.toList.map Char.toNat

/-- JavaScript `s || d` for an optional string `s`: `undefined` and the empty
string are falsy. -/
def strOr (s : Option JSString) (d : JSString) : JSString :=
  match s with
  | none => d
  | some [] => d
  | some (c :: cs) => c :: cs

/-! ## Fare estimation -/

/-- What a property read on a plain object literal can yield here: a number,
some object or function (found on `Object.prototype`), or `undefined`. -/
inductive JSVal where
  | number (q : ℚ)
  | object
  | undefined
  deriving DecidableEq

/-- Property names that every plain object inherits from `Object.prototype`;
reading one yields a function (or, for `__proto__`, the prototype object). -/
def objectPrototypeKeys : List JSString :=
  [lit "constructor", lit "hasOwnProperty", lit "isPrototypeOf",
   lit "propertyIsEnumerable", lit "toLocaleString", lit "toString", lit "valueOf",
   lit "__proto__", lit "__defineGetter__", lit "__defineSetter__",
   lit "__lookupGetter__", lit "__lookupSetter__"]

/-- The read `seatPricing[key]` of
`const seatPricing = { economy: 50, business: 100, first: 200 }`. -/
def seatPricing (key : JSString) : JSVal :=
  if key = lit "economy" then .number 50
  else if key = lit "business" then .number 100
  else if key = lit "first" then .number 200
  else if key ∈ objectPrototypeKeys then .object
  else .undefined

/-- JavaScript `v || d` on a property value: `undefined`, `0` are falsy. -/
def valOr (v : JSVal) (d : JSVal) : JSVal :=
  match v with
  | .undefined => d
  | .number q => if q = 0 then d else .number q
  | .object => .object

/-- JavaScript `v * n` for a count `n`: a non-numeric operand gives `NaN`. -/
def valTimes (v : JSVal) (n : ℕ) : Option ℚ :=
  match v with
  | .number q => some (q * n)
  | .object => none
  | .undefined => none

/-- `Math.round`: the nearest integer, halves rounded up; `NaN` stays `NaN`. -/
def mathRound (x : Option ℚ) : Option ℤ :=
  x.map fun q => ⌊q + 1 / 2⌋

/-- JavaScript `n || 1` for a number that may be missing: `undefined`, `NaN`
(both `none`) and `0` are falsy. -/
def numOr1 (n : Option ℤ) : ℤ :=
  match n with
  | none => 1
  | some p => if p = 0 then 1 else p

/-- The fields of its argument that `estimateFare` reads; each may be missing. -/
structure FareData where
  klass : Option JSString
  passengers : Option ℤ
  seats : Option (List JSString)

/-- The function `estimateFare(data)`. -/
def estimateFare (data : FareData) : Option ℤ :=
  let base : ℚ := 200
  let klass := strOr data.klass (lit "economy")
  let mult : ℚ := if klass = lit "business" then 2 else (if klass = lit "first" then 7 / 2 else 1)
  let passengers : ℤ := numOr1 data.passengers
  let seatsCount : ℕ := (data.seats.getD []).length
  let seatTotal := valTimes (valOr (seatPricing klass) (seatPricing (lit "economy"))) seatsCount
  mathRound (seatTotal.map fun t => base * mult * passengers + t)

/-! ## Records, storage and session state -/

/-- The object built from the entries of the booking form,
`Object.fromEntries(new FormData(form).entries())`.  Every entry is a string
or missing; `passengers` is given by its numeric reading `Number(...)`, `none`
when that is `NaN`.  The entries `id` and `price` stand for fields of those
names, should the form carry them. -/
structure FormEntries where
  name : Option JSString
  email : Option JSString
  from_ : Option JSString
  to_ : Option JSString
  depart : Option JSString
  return_ : Option JSString
  klass : Option JSString
  passengers : Option ℤ
  id : Option JSString
  price : Option JSString

/-- The object returned by `getFormData()`; it is also what a draft stores. -/
structure FormData where
  name : Option JSString
  email : Option JSString
  from_ : Option JSString
  to_ : Option JSString
  depart : Option JSString
  return_ : Option JSString
  klass : Option JSString
  passengers : ℤ
  seats : List JSString
  id : Option JSString
  price : Option JSString
  deriving DecidableEq

/-- A booking record of the persisted list.  `price` is `none` for `NaN`
(serialised as `null`). -/
structure Booking where
  name : Option JSString
  email : Option JSString
  from_ : Option JSString
  to_ : Option JSString
  depart : Option JSString
  return_ : Option JSString
  klass : Option JSString
  passengers : Option ℤ
  seats : Option (List JSString)
  id : ℕ
  price : Option ℤ
  deriving DecidableEq

/-- The two keys of `localStorage` the script uses. -/
structure LocalStorage where
  aeroBookings : Option (List Booking)
  aeroDraft : Option FormData
  deriving DecidableEq

/-- The mutable variables of the script together with the storage. -/
structure State where
  localStorage : LocalStorage
  selectedSeats : List JSString
  currentPage : ℤ
  confirmDeleteTargetId : Option ℕ
  deriving DecidableEq

/-- The values of the edit dialog's inputs when "save" is clicked; `editId` and
`editPassengers` are given by their numeric readings. -/
structure EditForm where
  editId : ℕ
  editName : JSString
  editEmail : JSString
  editFrom : JSString
  editTo : JSString
  editDepart : JSString
  editReturn : JSString
  editPassengers : Option ℤ
  editClass : JSString

/-- The notification a handler shows. -/
inductive Toast where
  | bookingNotFound
  | bookingUpdated
  | bookingRemoved
  deriving DecidableEq

/-- The fare-relevant fields of the form data. -/
def FormData.toFare (d : FormData) : FareData :=
  ⟨d.klass, some d.passengers, some d.seats⟩

/-- The fare-relevant fields of a stored record. -/
def Booking.toFare (b : Booking) : FareData :=
  ⟨b.klass, b.passengers, b.seats⟩

/-- The function `getFormData()`. -/
def getFormData (form : FormEntries) (selectedSeats : List JSString) : FormData :=
  { name := form.name, email := form.email, from_ := form.from_, to_ := form.to_,
    depart := form.depart, return_ := form.return_, klass := form.klass,
    passengers := numOr1 form.passengers,
    seats := selectedSeats,
    id := form.id, price := form.price }

/-- The object literal `{...data, id: Date.now(), price: estimateFare(data)}`:
the later keys replace the entries of the same name. -/
def newBooking (data : FormData) (now : ℕ) : Booking :=
  { name := data.name, email := data.email, from_ := data.from_, to_ := data.to_,
    depart := data.depart, return_ := data.return_, klass := data.klass,
    passengers := some data.passengers, seats := some data.seats,
    id := now, price := estimateFare data.toFare }

/-- The read `JSON.parse(localStorage.getItem('aeroBookings') || '[]')`. -/
def loadBookings (ls : LocalStorage) : List Booking :=
  ls.aeroBookings.getD []

/-! ## Listing: filter and pagination -/

def PAGE_SIZE : ℕ := 6

/-- `String.prototype.toLowerCase`, on the ASCII letters `A`..`Z`; other code
units are kept (the embedding does not carry the Unicode case tables). -/
def toLowerCase (s : JSString) : JSString :=
  s.map fun u => if 65 ≤ u ∧ u ≤ 90 then u + 32 else u

/-- `Array.prototype.join(' ')` on optional strings: a missing element is
written as the empty string. -/
def joinSpace : List (Option JSString) → JSString
  | [] => []
  | [x] => x.getD []
  | x :: y :: rest => x.getD [] ++ 32 :: joinSpace (y :: rest)

/-- `String.prototype.includes`. -/
def includes (s t : JSString) : Bool := decide (t <:+: s)

/-- The predicate of the `filter` call in `renderBookingsList`. -/
def matchesFilter (filter : JSString) (b : Booking) : Bool :=
  filter.isEmpty ||
    includes (toLowerCase (joinSpace [b.name, b.from_, b.to_, b.email])) (toLowerCase filter)

/-- `Array.prototype.slice(start, end)` with integer arguments. -/
def jsSlice {α : Type} (l : List α) (start stop : ℤ) : List α :=
  let len : ℤ := l.length
  let k : ℤ := if start < 0 then max (len + start) 0 else min start len
  let final : ℤ := if stop < 0 then max (len + stop) 0 else min stop len
  (l.drop k.toNat).take (final - k).toNat

/-- `Math.max(1, Math.ceil(n / PAGE_SIZE))`. -/
def totalPages (n : ℕ) : ℤ :=
  max 1 ⌈(n : ℚ) / PAGE_SIZE⌉

/-- What `renderBookingsList` computes for display. -/
structure ListView where
  filtered : List Booking
  totalPages : ℤ
  currentPage : ℤ
  pageItems : List Booking

/-- The pagination block of `renderBookingsList`: the page count, the page
variable after the clamp, and the slice shown. -/
def paginate (filtered : List Booking) (currentPage : ℤ) : ℤ × ℤ × List Booking :=
  let total := totalPages filtered.length
  let currentPage := if currentPage > total then total else currentPage
  let start := (currentPage - 1) * PAGE_SIZE
  (total, currentPage, jsSlice filtered start (start + PAGE_SIZE))

/-- The computation of `renderBookingsList(filter)` on the loaded list and the
page variable. -/
def listView (bookings : List Booking) (filter : JSString) (currentPage : ℤ) : ListView :=
  let filtered := bookings.filter (matchesFilter filter)
  let pg := paginate filtered currentPage
  ⟨filtered, pg.1, pg.2.1, pg.2.2⟩

/-- The function `renderBookingsList(filter)`: the new state (the page variable
may be lowered) and the rendered view. -/
def renderBookingsList (st : State) (filter : JSString) : State × ListView :=
  let v := listView (loadBookings st.localStorage) filter st.currentPage
  ({ st with currentPage := v.currentPage }, v)

/-! ## Handlers of the booking store -/

/-- The click handler of `confirmBtn`; `form` are the form entries and `now` is
the value of `Date.now()`. -/
def confirmBooking (st : State) (form : FormEntries) (now : ℕ) : State :=
  let data := getFormData form st.selectedSeats
  let bookings := loadBookings st.localStorage
  let bookings := bookings ++ [newBooking data now]
  let ls : LocalStorage := { st.localStorage with aeroBookings := some bookings }
  let ls : LocalStorage := { ls with aeroDraft := none }
  let page : ℤ := if ⌈(bookings.length : ℚ) / PAGE_SIZE⌉ = 0 then 1 else ⌈(bookings.length : ℚ) / PAGE_SIZE⌉
  let st : State := { st with localStorage := ls, selectedSeats := [], currentPage := page }
  (renderBookingsList st []).1

/-- The click handler of `saveDraft`. -/
def saveDraftClick (st : State) (form : FormEntries) : State :=
  let data := getFormData form st.selectedSeats
  { st with localStorage := { st.localStorage with aeroDraft := some data } }

/-- The record written by the edit handler in place of `old`. -/
def editedBooking (old : Booking) (e : EditForm) : Booking :=
  { old with
    name := some e.editName,
    email := some e.editEmail,
    from_ := some e.editFrom,
    to_ := some e.editTo,
    depart := some e.editDepart,
    return_ := some e.editReturn,
    passengers := some (numOr1 e.editPassengers),
    klass := some e.editClass,
    price := estimateFare ⟨some e.editClass, some (numOr1 e.editPassengers),
      some (old.seats.getD [])⟩ }

/-- `Array.prototype.findIndex`, with `none` for the result `-1`. -/
def findIndex {α : Type} (p : α → Bool) : List α → Option ℕ
  | [] => none
  | a :: l => if p a then some 0 else (findIndex p l).map (· + 1)

/-- The click handler of `saveEditBookingBtn`; `search` is the value of the
search box. -/
def saveEditBooking (st : State) (e : EditForm) (search : JSString) : State × Toast :=
  let id := e.editId
  let bookings := loadBookings st.localStorage
  match findIndex (fun b => b.id == id) bookings with
  | none => (st, Toast.bookingNotFound)
  | some idx =>
    let bookings := bookings.modify (fun old => editedBooking old e) idx
    let st : State := { st with localStorage := { st.localStorage with aeroBookings := some bookings } }
    ((renderBookingsList st search).1, Toast.bookingUpdated)

/-- The function `clearBooking(id)`. -/
def clearBooking (st : State) (id : ℕ) (search : JSString) : State × Toast :=
  let bookings := loadBookings st.localStorage
  let bookings := bookings.filter (fun b => b.id != id)
  let st : State := { st with localStorage := { st.localStorage with aeroBookings := some bookings } }
  ((renderBookingsList st search).1, Toast.bookingRemoved)

/-- The click handler of `confirmDeleteBtn`: nothing happens while the target
is `null` (or `0`, which is falsy as well). -/
def confirmDeleteClick (st : State) (search : JSString) : State :=
  match st.confirmDeleteTargetId with
  | none => st
  | some id =>
    if id = 0 then st
    else { (clearBooking st id search).1 with confirmDeleteTargetId := none }

/-! ## Seat map -/

/-- A seat button of the rendered map: its label and its two CSS marks. -/
structure Seat where
  label : JSString
  occupied : Bool
  selected : Bool
  deriving DecidableEq

/-- The options object of `renderSeatMap`. -/
structure SeatOpts where
  markBooked : Bool
  readOnly : Bool

/-- The function `getBookedSeats()`: the seat labels of all stored bookings, each
once, in order of first appearance (the iteration order of a `Set`). -/
def getBookedSeats (ls : LocalStorage) : List JSString :=
  (loadBookings ls).foldl
    (fun s b => (b.seats.getD []).foldl (fun s se => if se ∈ s then s else s ++ [se]) s) []

/-- The decimal digits of a row number, as the template literal writes it. -/
def decimal (r : ℕ) : JSString := (Nat.toDigits 10 r).map Char.toNat

/-- `String.fromCharCode(n)`: the single code unit `n` modulo `2^16`. -/
def fromCharCode (n : ℕ) : JSString := [n % 65536]

/-- The label of the seat in row `r`, column `c`: the template
`r` followed by `String.fromCharCode(65+c)`. -/
def seatLabel (r c : ℕ) : JSString := decimal r ++ fromCharCode (65 + c)

/-- The button created in the loop body for row `r` and column `c`; `coin r c`
tells whether `Math.random() < 0.03` there. -/
def seatButton (booked selectedSeats : List JSString) (opts : SeatOpts) (coin : ℕ → ℕ → Bool)
    (r c : ℕ) : Seat :=
  let label := seatLabel r c
  let occupied := booked.contains label
  let occupied := occupied || (!opts.markBooked && coin r c)
  let selected := selectedSeats.contains label && !occupied
  ⟨label, occupied, selected⟩

/-- The inner loop `for (let c=0; c<cols; c++)`, started at `c` with the
buttons appended so far; `fuel` bounds the number of iterations. -/
def colLoop (mk : ℕ → ℕ → Seat) (cols r : ℕ) : ℕ → ℕ → List Seat → List Seat
  | 0, _, acc => acc
  | fuel + 1, c, acc =>
    if c < cols then colLoop mk cols r fuel (c + 1) (acc ++ [mk r c]) else acc

/-- The outer loop `for (let r=1; r<=rows; r++)`. -/
def rowLoop (mk : ℕ → ℕ → Seat) (rows cols : ℕ) : ℕ → ℕ → List Seat → List Seat
  | 0, _, acc => acc
  | fuel + 1, r, acc =>
    if r ≤ rows then rowLoop mk rows cols fuel (r + 1) (colLoop mk cols r cols 0 acc) else acc

/-- The function `renderSeatMap(rows, cols, opts)`: the buttons of the map in
the order they are appended. -/
def renderSeatMap (st : State) (rows cols : ℕ) (opts : SeatOpts) (coin : ℕ → ℕ → Bool) :
    List Seat :=
  let booked := if opts.markBooked then getBookedSeats st.localStorage else []
  rowLoop (seatButton booked st.selectedSeats opts coin) rows cols rows 1 []

/-- The click on the seat button at position `i` of the rendered map.  The
handler is attached only when the map is not read-only; it returns at once on an
occupied seat, otherwise toggles the button's `selected` mark and then adds the
label to `selectedSeats` (if absent) or filters it out, according to the mark. -/
def clickSeat (opts : SeatOpts) (buttons : List Seat) (selectedSeats : List JSString) (i : ℕ) :
    List Seat × List JSString :=
  if opts.readOnly then (buttons, selectedSeats)
  else
    match buttons[i]? with
    | none => (buttons, selectedSeats)
    | some div =>
      if div.occupied then (buttons, selectedSeats)
      else
        let div : Seat := { div with selected := !div.selected }
        let s := div.label
        let buttons := buttons.set i div
        if div.selected then
          (buttons, if selectedSeats.contains s then selectedSeats else selectedSeats ++ [s])
        else (buttons, selectedSeats.filter (fun x => x != s))

/-- A sequence of clicks, on the buttons at the listed positions in turn. -/
def clickSeats (opts : SeatOpts) (buttons : List Seat) (selectedSeats : List JSString)
    (clicks : List ℕ) : List Seat × List JSString :=
  clicks.foldl (fun p i => clickSeat opts p.1 p.2 i) (buttons, selectedSeats)

/-- The buttons and the selection after `renderSeatMap(rows, cols, opts)` in
session `st`, followed by clicks on the buttons at the listed positions. -/
def seatSession (st : State) (rows cols : ℕ) (opts : SeatOpts) (coin : ℕ → ℕ → Bool)
    (clicks : List ℕ) : List Seat × List JSString :=
  clickSeats opts (renderSeatMap st rows cols opts coin) st.selectedSeats clicks

/-! ## Export to CSV -/

/-- `String(n)` for an integer `n` (of magnitude below `10^21`, where JavaScript
writes plain decimal digits). -/
def numberToString (z : ℤ) : JSString :=
  if z < 0 then 45 :: decimal z.natAbs else decimal z.toNat

/-- `String(v)` for a string that may be missing: `undefined` is written out. -/
def stringOf (v : Option JSString) : JSString := v.getD (lit "undefined")

/-- `Array.prototype.join(sep)` on strings. -/
def joinWith (sep : JSString) : List JSString → JSString
  | [] => []
  | [x] => x
  | x :: y :: rest => x ++ sep ++ joinWith sep (y :: rest)

/-- The function `formatPrice(n)`; `toLocaleString` is the host's
`Number.prototype.toLocaleString` (its result depends on the locale), `none`
standing for `NaN`. -/
def formatPrice (toLocaleString : Option ℚ → JSString) (n : Option ℚ) : JSString :=
  lit "₦" ++ toLocaleString n

/-- The quoting of a cell: each double quote doubled, the whole wrapped in double
quotes. -/
def csvCell (v : JSString) : JSString :=
  34 :: (v.flatMap fun u => if u = 34 then [34, 34] else [u]) ++ [34]

/-- The value `seatsCell` of the export loop. -/
def seatsCell (b : Booking) : JSString :=
  joinWith (lit "|") (b.seats.getD [])

/-- The value `seatsSummary` of the export loop. -/
def seatsSummary (toLocaleString : Option ℚ → JSString) (b : Booking) : JSString :=
  let seatsArr := b.seats.getD []
  let seatCount := seatsArr.length
  let seatPriceEach := valOr (seatPricing (stringOf b.klass)) (seatPricing (lit "economy"))
  let seatTotal := valTimes seatPriceEach seatCount
  if seatCount ≠ 0 then
    numberToString seatCount ++ lit " seat" ++ (if seatCount > 1 then lit "s" else []) ++
      lit ": " ++ joinWith (lit ", ") seatsArr ++ lit " (" ++
      formatPrice toLocaleString seatTotal ++ lit ")"
  else []

/-- The array `row` of the export loop, each value as `String(v)` writes it. -/
def csvRowValues (toLocaleString : Option ℚ → JSString) (b : Booking) : List JSString :=
  [numberToString b.id, stringOf b.name, stringOf b.from_, stringOf b.to_, stringOf b.depart,
   strOr b.return_ [], stringOf b.klass,
   (match b.passengers with
    | none => lit "undefined"
    | some n => numberToString n),
   (match b.price with
    | none => lit "null"
    | some n => numberToString n),
   seatsCell b, seatsSummary toLocaleString b, stringOf b.email]

/-- The header array of the export. -/
def csvHeader : List JSString :=
  [lit "id", lit "name", lit "from", lit "to", lit "depart", lit "return", lit "class",
   lit "passengers", lit "price", lit "seats", lit "seat_summary", lit "email"]

/-- The function `exportBookingsCSV()`: the text put in the downloaded file, or
`none` when there is nothing to export (a notification is shown instead). -/
def exportBookingsCSV (toLocaleString : Option ℚ → JSString) (ls : LocalStorage) :
    Option JSString :=
  let bookings := loadBookings ls
  if bookings.length = 0 then none
  else
    let csvRows := bookings.foldl
      (fun csvRows b =>
        csvRows ++ [joinWith (lit ",") ((csvRowValues toLocaleString b).map csvCell)])
      [joinWith (lit ",") csvHeader]
    some (joinWith (lit "\n") csvRows)

/-! ## Storage as text -/

/-- The text stored under the key `aeroBookings`, told apart by what
`JSON.parse` makes of it: the empty string, the JSON text of a list of booking
records, or text that is not JSON (for which `JSON.parse` throws).  Text that is
JSON but not a list of records is not represented. -/
inductive StoredText where
  | emptyString
  | serialized (l : List Booking)
  | notJSON
  deriving DecidableEq

/-- An exception thrown by the host; no handler of the script catches one. -/
inductive JSError where
  | syntaxError
  deriving DecidableEq

/-- The session with the storage held as text. -/
structure RawState where
  aeroBookings : Option StoredText
  aeroDraft : Option FormData
  selectedSeats : List JSString
  currentPage : ℤ
  confirmDeleteTargetId : Option ℕ

/-- The expression `JSON.parse(localStorage.getItem('aeroBookings') || '[]')`:
an absent key (`null`) and the empty string are falsy, so `'[]'` is parsed
instead; text that is not JSON makes `JSON.parse` throw a `SyntaxError`. -/
def parseBookings (item : Option StoredText) : Except JSError (List Booking) :=
  match item with
  | none => .ok []
  | some .emptyString => .ok []
  | some (.serialized l) => .ok l
  | some .notJSON => .error .syntaxError

/-- The session with the stored text replaced by the list `l` read from it. -/
def RawState.withList (r : RawState) (l : List Booking) : State :=
  { localStorage := { aeroBookings := some l, aeroDraft := r.aeroDraft },
    selectedSeats := r.selectedSeats,
    currentPage := r.currentPage,
    confirmDeleteTargetId := r.confirmDeleteTargetId }

/-- The session as a handler sees it once its load of the list has returned. -/
def RawState.parsed (r : RawState) : Except JSError State :=
  (parseBookings r.aeroBookings).map r.withList

/-- The function `renderBookingsList(filter)` on stored text: the load is its
first statement, and an exception thrown there ends the call. -/
def renderBookingsListRaw (r : RawState) (filter : JSString) : Except JSError (State × ListView) :=
  r.parsed.map fun st => renderBookingsList st filter

/-- The click handler of `confirmBtn` on stored text: `getFormData()` reads the
form, then the list is loaded. -/
def confirmBookingRaw (r : RawState) (form : FormEntries) (now : ℕ) : Except JSError State :=
  r.parsed.map fun st => confirmBooking st form now

/-- The click handler of `saveEditBookingBtn` on stored text. -/
def saveEditBookingRaw (r : RawState) (e : EditForm) (search : JSString) :
    Except JSError (State × Toast) :=
  r.parsed.map fun st => saveEditBooking st e search

/-- The function `clearBooking(id)` on stored text. -/
def clearBookingRaw (r : RawState) (id : ℕ) (search : JSString) : Except JSError (State × Toast) :=
  r.parsed.map fun st => clearBooking st id search

/-- The function `exportBookingsCSV()` on stored text. -/
def exportBookingsCSVRaw (toLocaleString : Option ℚ → JSString) (r : RawState) :
    Except JSError (Option JSString) :=
  r.parsed.map fun st => exportBookingsCSV toLocaleString st.localStorage

/-- The function `getBookedSeats()` on stored text. -/
def getBookedSeatsRaw (r : RawState) : Except JSError (List JSString) :=
  r.parsed.map fun st => getBookedSeats st.localStorage

/-- The function `renderSeatMap(rows, cols, opts)` on stored text: the list is
loaded, through `getBookedSeats()`, only when `opts.markBooked` is set. -/
def renderSeatMapRaw (r : RawState) (rows cols : ℕ) (opts : SeatOpts) (coin : ℕ → ℕ → Bool) :
    Except JSError (List Seat) :=
  if opts.markBooked then r.parsed.map fun st => renderSeatMap st rows cols opts coin
  else
    .ok (renderSeatMap
      { localStorage := { aeroBookings := none, aeroDraft := r.aeroDraft },
        selectedSeats := r.selectedSeats,
        currentPage := r.currentPage,
        confirmDeleteTargetId := r.confirmDeleteTargetId } rows cols opts coin)

/-- The number written by a list of decimal digit code units. -/
def decimalValue (l : JSString) : ℕ := l.foldl (fun a u => 10 * a + (u - 48)) 0

/-! ## Sample data -/

/-- A stored booking: Ann, Lagos to London, economy, one passenger, seat 1A. -/
def bookingAnn : Booking :=
  { name := some (lit "Ann"), email := some (lit "ann@example.com"),
    from_ := some (lit "Lagos"), to_ := some (lit "London"),
    depart := some (lit "2025-12-28"), return_ := some [],
    klass := some (lit "economy"), passengers := some 1, seats := some [lit "1A"],
    id := 1000, price := some 250 }

/-- A stored booking: Al, Lagos to Dubai, business, two passengers, no seat. -/
def bookingAl : Booking :=
  { name := some (lit "Al"), email := some (lit "al@example.com"),
    from_ := some (lit "Lagos"), to_ := some (lit "Dubai"),
    depart := some (lit "2025-12-29"), return_ := some (lit "2026-01-05"),
    klass := some (lit "business"), passengers := some 2, seats := some [],
    id := 2000, price := some 800 }

/-- A session with two stored bookings, a draft, one seat chosen, on page 1. -/
def sampleState : State :=
  { localStorage :=
      { aeroBookings := some [bookingAnn, bookingAl],
        aeroDraft := some
          { name := some (lit "Bea"), email := none, from_ := none, to_ := none, depart := none,
            return_ := none, klass := some (lit "first"), passengers := 1, seats := [lit "2C"],
            id := none, price := none } },
    selectedSeats := [lit "2C"],
    currentPage := 1,
    confirmDeleteTargetId := none }

/-- Form entries for a new booking in the name of Ann; the form also carries an
entry called `price`. -/
def sampleForm : FormEntries :=
  { name := some (lit "Ann"), email := some (lit "ann2@example.com"),
    from_ := some (lit "Abuja"), to_ := some (lit "Dubai"),
    depart := some (lit "2026-02-01"), return_ := some [],
    klass := some (lit "first"), passengers := some 2,
    id := none, price := some (lit "1") }

/-- Inputs of the edit dialog for the booking with identifier 2000. -/
def sampleEdit : EditForm :=
  { editId := 2000, editName := lit "Alan", editEmail := lit "alan@example.com",
    editFrom := lit "Enugu", editTo := lit "Dubai", editDepart := lit "2025-12-30",
    editReturn := [], editPassengers := some 3, editClass := lit "first" }

/-- A fresh session: nothing stored, nothing selected. -/
def emptyState : State :=
  { localStorage := { aeroBookings := none, aeroDraft := none },
    selectedSeats := [],
    currentPage := 1,
    confirmDeleteTargetId := none }

/-- A session whose selection holds seat 1A while a stored booking has that seat
(the selection was made before the booking reached the storage, for instance from
another tab). -/
def staleState : State :=
  { localStorage := { aeroBookings := some [bookingAnn], aeroDraft := none },
    selectedSeats := [lit "1A"],
    currentPage := 1,
    confirmDeleteTargetId := none }

/-- A session with nothing stored and seats 1A and 1B selected, in this order. -/
def twoSeatsState : State :=
  { localStorage := { aeroBookings := none, aeroDraft := none },
    selectedSeats := [lit "1A", lit "1B"],
    currentPage := 1,
    confirmDeleteTargetId := none }

/-- A stored booking in economy with seats 2C and 2D. -/
def bookingBea : Booking :=
  { name := some (lit "Bea \"B\" Obi"), email := some (lit "bea@example.com"),
    from_ := some (lit "Enugu"), to_ := some (lit "Accra"),
    depart := some (lit "2026-01-05"), return_ := none,
    klass := some (lit "economy"), passengers := some 1, seats := some [lit "2C", lit "2D"],
    id := 3000, price := some 300 }

/-- A number formatter for the examples: plain decimal digits of the integer
part, as an English locale writes integers below 1000; `NaN` for `NaN`. -/
def plainNumber (n : Option ℚ) : JSString :=
  match n with
  | none => lit "NaN"
  | some q => numberToString ⌊q⌋

/-- A session whose `aeroBookings` key holds text that is not JSON. -/
def corruptState : RawState :=
  { aeroBookings := some StoredText.notJSON,
    aeroDraft := none,
    selectedSeats := [lit "2C"],
    currentPage := 1,
    confirmDeleteTargetId := none }

/-- The per-seat price in the words of the specification: economy 50, business
100, first 200, the economy price for an unknown or missing class. -/
def specPerSeatPrice (klass : Option JSString) : ℚ :=
  if klass = some (lit "business") then 100
  else if klass = some (lit "first") then 200
  else 50

/-- The seat summary in the words of the specification: the seat count, "seat"
or "seats", the labels joined with ", ", and the formatted seat total. -/
def specSeatSummary (toLocaleString : Option ℚ → JSString) (b : Booking) : JSString :=
  numberToString (b.seats.getD []).length ++
    (if (b.seats.getD []).length = 1 then lit " seat" else lit " seats") ++ lit ": " ++
    joinWith (lit ", ") (b.seats.getD []) ++ lit " (₦" ++
    toLocaleString (some (specPerSeatPrice b.klass * (b.seats.getD []).length)) ++ lit ")"

/-! ## Fare estimation: properties -/

theorem floor_int_add_half (z : ℤ) : ⌊(z : ℚ) + 1 / 2⌋ = z := by
  rw [Int.floor_int_add]
  have h : ⌊(1 / 2 : ℚ)⌋ = 0 := by
    rw [Int.floor_eq_iff]
    norm_num
  omega

/-- For a class that is not the name of a member of `Object.prototype`, the fare
is `round(200 * m * p + s * n)` with the multiplier `m` and per-seat price `s`
of the class (economy for any other or missing class), `p` the passenger count
(1 when missing or 0) and `n` the number of seats; the rounded value is the
integer written out below. -/
theorem estimateFare_formula (k : Option JSString) (p : Option ℤ) (seats : Option (List JSString))
    (hk : strOr k (lit "economy") ∉ objectPrototypeKeys) :
    estimateFare ⟨k, p, seats⟩ =
      some (if strOr k (lit "economy") = lit "business" then
              400 * numOr1 p + 100 * ((seats.getD []).length : ℤ)
            else if strOr k (lit "economy") = lit "first" then
              700 * numOr1 p + 200 * ((seats.getD []).length : ℤ)
            else 200 * numOr1 p + 50 * ((seats.getD []).length : ℤ)) := by
  have e1 : seatPricing (lit "economy") = JSVal.number 50 := by decide
  by_cases hb : strOr k (lit "economy") = lit "business"
  · have e2 : seatPricing (lit "business") = JSVal.number 100 := by decide
    simp only [estimateFare, hb, e2, valOr, valTimes, mathRound, if_true, Option.map_some']
    refine congrArg some (Eq.trans ?_ (floor_int_add_half _))
    congr 1
    push_cast
    ring
  · by_cases hf : strOr k (lit "economy") = lit "first"
    · have e3 : seatPricing (lit "first") = JSVal.number 200 := by decide
      have hfb : ¬ lit "first" = lit "business" := by decide
      simp only [estimateFare, hf, e3, valOr, valTimes, mathRound, hfb, if_true, if_false,
        Option.map_some']
      refine congrArg some (Eq.trans ?_ (floor_int_add_half _))
      congr 1
      push_cast
      ring
    · have hv : valOr (seatPricing (strOr k (lit "economy"))) (JSVal.number 50)
          = JSVal.number 50 := by
        unfold seatPricing
        by_cases he : strOr k (lit "economy") = lit "economy"
        · simp [he, valOr]
        · simp [he, hb, hf, hk, valOr]
      simp only [estimateFare, hb, hf, e1, hv, valTimes, mathRound, if_false, Option.map_some']
      refine congrArg some (Eq.trans ?_ (floor_int_add_half _))
      congr 1
      push_cast
      ring

theorem estimateFare_formula_witness :
    estimateFare ⟨some (lit "business"), some 2, some [lit "1A", lit "1B"]⟩ = some 1000 := by
  have h := estimateFare_formula (some (lit "business")) (some 2) (some [lit "1A", lit "1B"])
    (by decide)
  simpa [strOr, lit, numOr1] using h

/-- C1, at the input `{class: 'constructor', passengers: 1, seats: []}`:
`seatPricing['constructor']` is the inherited constructor function, which is
truthy, so the economy default is not taken, the seat total is `NaN` and the
fare is `NaN` instead of the 200 that the economy default gives. -/
theorem estimateFare_inherited_key :
    estimateFare ⟨some (lit "constructor"), some 1, some []⟩ = none ∧
    estimateFare ⟨some (lit "economy"), some 1, some []⟩ = some 200 ∧
    estimateFare ⟨none, some 1, some []⟩ = some 200 ∧
    estimateFare ⟨some (lit "coach"), some 1, some []⟩ = some 200 := by
  decide!

/-! ## Booking store: auxiliary facts -/

theorem findIndex_eq_none_iff {α : Type} (p : α → Bool) (l : List α) :
    findIndex p l = none ↔ ∀ x ∈ l, p x = false := by
  induction l with
  | nil => simp [findIndex]
  | cons a l ih =>
    by_cases h : p a = true
    · simp [findIndex, h]
    · simp [findIndex, h, ih]

theorem findIndex_eq_some {α : Type} (p : α → Bool) (l : List α) (i : ℕ)
    (h : findIndex p l = some i) :
    ∃ a, l[i]? = some a ∧ p a = true ∧ ∀ j, j < i → ∀ b, l[j]? = some b → p b = false := by
  induction l generalizing i with
  | nil => simp [findIndex] at h
  | cons a l ih =>
    by_cases ha : p a = true
    · simp only [findIndex, ha, if_true, Option.some.injEq] at h
      subst h
      exact ⟨a, by simp, ha, by intro j hj; omega⟩
    · simp only [findIndex, ha, Bool.false_eq_true, if_false, Option.map_eq_some'] at h
      obtain ⟨k, hk, rfl⟩ := h
      obtain ⟨x, hx, hpx, hlt⟩ := ih k hk
      refine ⟨x, by simpa using hx, hpx, ?_⟩
      intro j hj b hb
      cases j with
      | zero =>
        simp only [List.getElem?_cons_zero, Option.some.injEq] at hb
        subst hb
        simpa using ha
      | succ j =>
        simp only [List.getElem?_cons_succ] at hb
        exact hlt j (by omega) b hb

theorem findIndex_isSome_of_mem {α : Type} (p : α → Bool) (l : List α) (x : α) (hx : x ∈ l)
    (hp : p x = true) : ∃ i, findIndex p l = some i := by
  cases h : findIndex p l with
  | some i => exact ⟨i, rfl⟩
  | none =>
    have := (findIndex_eq_none_iff p l).1 h x hx
    simp [hp] at this

theorem loadBookings_confirmBooking (st : State) (form : FormEntries) (now : ℕ) :
    loadBookings (confirmBooking st form now).localStorage =
      loadBookings st.localStorage ++ [newBooking (getFormData form st.selectedSeats) now] := by
  simp [confirmBooking, renderBookingsList, loadBookings]

theorem saveEditBooking_of_findIndex (st : State) (e : EditForm) (search : JSString) (i : ℕ)
    (h : findIndex (fun b => b.id == e.editId) (loadBookings st.localStorage) = some i) :
    loadBookings (saveEditBooking st e search).1.localStorage =
        (loadBookings st.localStorage).modify (fun old => editedBooking old e) i ∧
      (saveEditBooking st e search).2 = Toast.bookingUpdated := by
  simp only [saveEditBooking, h]
  simp [renderBookingsList, loadBookings]

theorem editedBooking_price (old : Booking) (e : EditForm) :
    (editedBooking old e).price = estimateFare (editedBooking old e).toFare := by
  cases hs : old.seats <;> simp [editedBooking, Booking.toFare, estimateFare, hs]

/-! ## C2: the stored price is the estimated fare -/

/-- C2: the record appended by the confirm handler, and the record put in place
by the save-edit handler, carry as price the value of `estimateFare` on their own
stored class, passenger count and seat list; the `price` entry of the form and
the price of the replaced record play no part. -/
theorem written_price_is_estimate (st : State) :
    (∀ (form : FormEntries) (now : ℕ), ∃ r : Booking,
        loadBookings (confirmBooking st form now).localStorage
          = loadBookings st.localStorage ++ [r] ∧
        r.price = estimateFare r.toFare) ∧
    (∀ (e : EditForm) (search : JSString) (i : ℕ),
        findIndex (fun b => b.id == e.editId) (loadBookings st.localStorage) = some i →
        ∃ r : Booking,
          (loadBookings (saveEditBooking st e search).1.localStorage)[i]? = some r ∧
          r.price = estimateFare r.toFare) := by
  constructor
  · intro form now
    exact ⟨_, loadBookings_confirmBooking st form now, rfl⟩
  · intro e search i h
    obtain ⟨old, hold, -, -⟩ := findIndex_eq_some _ _ _ h
    refine ⟨editedBooking old e, ?_, editedBooking_price old e⟩
    rw [(saveEditBooking_of_findIndex st e search i h).1, List.getElem?_modify, hold]
    simp

theorem written_price_is_estimate_witness :
    (∃ r : Booking,
        loadBookings (confirmBooking sampleState sampleForm 3000).localStorage
          = loadBookings sampleState.localStorage ++ [r] ∧
        r.price = estimateFare r.toFare) ∧
    findIndex (fun b => b.id == sampleEdit.editId) (loadBookings sampleState.localStorage)
      = some 1 ∧
    (∃ r : Booking,
        (loadBookings (saveEditBooking sampleState sampleEdit []).1.localStorage)[1]? = some r ∧
        r.price = estimateFare r.toFare) :=
  ⟨(written_price_is_estimate sampleState).1 sampleForm 3000, by decide,
   (written_price_is_estimate sampleState).2 sampleEdit [] 1 (by decide)⟩

/-! ## C3: confirming appends one record and clears draft and selection -/

/-- C3: after the confirm handler the stored list is the loaded list followed by
one new record; the records already there keep their positions and contents; the
new record has the form's fields, the passenger count (1 when missing or 0), the
current seat selection, the clock reading as identifier and the estimated fare;
the draft key is absent and the seat selection is empty. -/
theorem confirm_appends_record (st : State) (form : FormEntries) (now : ℕ) :
    (confirmBooking st form now).localStorage.aeroBookings =
      some (loadBookings st.localStorage ++
        [{ name := form.name, email := form.email, from_ := form.from_, to_ := form.to_,
           depart := form.depart, return_ := form.return_, klass := form.klass,
           passengers := some (numOr1 form.passengers), seats := some st.selectedSeats,
           id := now,
           price := estimateFare
             ⟨form.klass, some (numOr1 form.passengers), some st.selectedSeats⟩ }]) ∧
    (loadBookings (confirmBooking st form now).localStorage).length =
      (loadBookings st.localStorage).length + 1 ∧
    (∀ i, i < (loadBookings st.localStorage).length →
      (loadBookings (confirmBooking st form now).localStorage)[i]? =
        (loadBookings st.localStorage)[i]?) ∧
    (confirmBooking st form now).localStorage.aeroDraft = none ∧
    (confirmBooking st form now).selectedSeats = [] := by
  refine ⟨?_, ?_, ?_, ?_, ?_⟩
  · simp [confirmBooking, renderBookingsList, newBooking, getFormData, FormData.toFare]
  · simp [loadBookings_confirmBooking]
  · intro i hi
    rw [loadBookings_confirmBooking, List.getElem?_append_left hi]
  · simp [confirmBooking, renderBookingsList]
  · simp [confirmBooking, renderBookingsList]

/-! ## C4: identifiers -/

/-- C4 fails as stated: a confirmation at clock reading 2000, while a record with
identifier 2000 is stored, appends a second record with identifier 2000. -/
theorem confirm_duplicate_id :
    (loadBookings (confirmBooking sampleState sampleForm 2000).localStorage).map Booking.id
      = [1000, 2000, 2000] ∧
    ¬ ((loadBookings (confirmBooking sampleState sampleForm 2000).localStorage).map
        Booking.id).Nodup ∧
    ¬ ∀ b ∈ loadBookings sampleState.localStorage, b.id < 2000 := by
  decide!

/-- C4, amended: when the clock reading at confirmation is greater than every
stored identifier, the new record's identifier (that reading) is greater than and
different from each stored one, and stored identifiers that were strictly
increasing, or pairwise distinct, stay so with the new record appended. -/
theorem confirm_fresh_id (st : State) (form : FormEntries) (now : ℕ)
    (h : ∀ b ∈ loadBookings st.localStorage, b.id < now) :
    ∃ r : Booking,
      loadBookings (confirmBooking st form now).localStorage
        = loadBookings st.localStorage ++ [r] ∧
      r.id = now ∧
      (∀ b ∈ loadBookings st.localStorage, b.id < r.id ∧ b.id ≠ r.id) ∧
      (((loadBookings st.localStorage).map Booking.id).Pairwise (· < ·) →
        ((loadBookings (confirmBooking st form now).localStorage).map Booking.id).Pairwise
          (· < ·)) ∧
      (((loadBookings st.localStorage).map Booking.id).Nodup →
        ((loadBookings (confirmBooking st form now).localStorage).map Booking.id).Nodup) := by
  refine ⟨_, loadBookings_confirmBooking st form now, rfl, ?_, ?_, ?_⟩
  · intro b hb
    have := h b hb
    simp only [newBooking]
    omega
  · intro hp
    rw [loadBookings_confirmBooking, List.map_append, List.pairwise_append]
    refine ⟨hp, by simp, ?_⟩
    intro a ha b hb
    simp only [List.map_cons, List.map_nil, List.mem_singleton] at hb
    obtain ⟨x, hx, rfl⟩ := List.mem_map.1 ha
    subst hb
    exact h x hx
  · intro hn
    rw [loadBookings_confirmBooking, List.map_append, List.nodup_append]
    refine ⟨hn, by simp, ?_⟩
    intro a ha hb
    simp only [List.map_cons, List.map_nil, List.mem_singleton] at hb
    obtain ⟨x, hx, rfl⟩ := List.mem_map.1 ha
    have := h x hx
    simp only [newBooking] at hb
    omega

theorem confirm_fresh_id_witness :
    (∀ b ∈ loadBookings sampleState.localStorage, b.id < 3000) ∧
    ∃ r : Booking,
      loadBookings (confirmBooking sampleState sampleForm 3000).localStorage
        = loadBookings sampleState.localStorage ++ [r] ∧
      r.id = 3000 ∧
      (∀ b ∈ loadBookings sampleState.localStorage, b.id < r.id ∧ b.id ≠ r.id) ∧
      (((loadBookings sampleState.localStorage).map Booking.id).Pairwise (· < ·) →
        ((loadBookings (confirmBooking sampleState sampleForm 3000).localStorage).map
          Booking.id).Pairwise (· < ·)) ∧
      (((loadBookings sampleState.localStorage).map Booking.id).Nodup →
        ((loadBookings (confirmBooking sampleState sampleForm 3000).localStorage).map
          Booking.id).Nodup) :=
  ⟨by decide, confirm_fresh_id sampleState sampleForm 3000 (by decide)⟩

/-! ## C5, C6: editing a stored record -/

/-- C5: when a stored record has the identifier of the edit dialog, saving the
edit keeps the length of the list; the first record with that identifier keeps
its position, identifier and seat list and takes the dialog's name, email,
origin, destination, dates, class and passenger count (1 when the count reads as
0 or is not a number); every other position holds the record it held. -/
theorem update_in_place (st : State) (e : EditForm) (search : JSString)
    (h : ∃ b ∈ loadBookings st.localStorage, b.id = e.editId) :
    ∃ (i : ℕ) (old r : Booking),
      (loadBookings st.localStorage)[i]? = some old ∧
      old.id = e.editId ∧
      (∀ j, j < i → ∀ b, (loadBookings st.localStorage)[j]? = some b → b.id ≠ e.editId) ∧
      (loadBookings (saveEditBooking st e search).1.localStorage).length
        = (loadBookings st.localStorage).length ∧
      (loadBookings (saveEditBooking st e search).1.localStorage)[i]? = some r ∧
      r.id = old.id ∧ r.seats = old.seats ∧
      r.name = some e.editName ∧ r.email = some e.editEmail ∧
      r.from_ = some e.editFrom ∧ r.to_ = some e.editTo ∧
      r.depart = some e.editDepart ∧ r.return_ = some e.editReturn ∧
      r.passengers = some (numOr1 e.editPassengers) ∧ r.klass = some e.editClass ∧
      (∀ j, j ≠ i →
        (loadBookings (saveEditBooking st e search).1.localStorage)[j]?
          = (loadBookings st.localStorage)[j]?) ∧
      (saveEditBooking st e search).2 = Toast.bookingUpdated := by
  obtain ⟨b, hb, hid⟩ := h
  obtain ⟨i, hi⟩ := findIndex_isSome_of_mem (fun b => b.id == e.editId)
    (loadBookings st.localStorage) b hb (by simp [hid])
  obtain ⟨old, hold, hp, hlt⟩ := findIndex_eq_some _ _ _ hi
  obtain ⟨hload, htoast⟩ := saveEditBooking_of_findIndex st e search i hi
  refine ⟨i, old, editedBooking old e, hold, by simpa using hp, ?_, ?_, ?_,
    rfl, rfl, rfl, rfl, rfl, rfl, rfl, rfl, rfl, rfl, ?_, htoast⟩
  · intro j hj x hx
    simpa using hlt j hj x hx
  · rw [hload, List.length_modify]
  · rw [hload, List.getElem?_modify, hold]
    simp
  · intro j hj
    rw [hload, List.getElem?_modify]
    cases (loadBookings st.localStorage)[j]? with
    | none => rfl
    | some x => simp [Ne.symm hj]

theorem update_in_place_witness :
    (∃ b ∈ loadBookings sampleState.localStorage, b.id = sampleEdit.editId) ∧
    loadBookings (saveEditBooking sampleState sampleEdit []).1.localStorage =
      [bookingAnn,
       { bookingAl with
         name := some (lit "Alan"), email := some (lit "alan@example.com"),
         from_ := some (lit "Enugu"), depart := some (lit "2025-12-30"), return_ := some [],
         passengers := some 3, klass := some (lit "first"), price := some 2100 }] ∧
    ∃ (i : ℕ) (old r : Booking),
      (loadBookings sampleState.localStorage)[i]? = some old ∧
      old.id = sampleEdit.editId ∧
      (∀ j, j < i → ∀ b, (loadBookings sampleState.localStorage)[j]? = some b →
        b.id ≠ sampleEdit.editId) ∧
      (loadBookings (saveEditBooking sampleState sampleEdit []).1.localStorage).length
        = (loadBookings sampleState.localStorage).length ∧
      (loadBookings (saveEditBooking sampleState sampleEdit []).1.localStorage)[i]? = some r ∧
      r.id = old.id ∧ r.seats = old.seats ∧
      r.name = some sampleEdit.editName ∧ r.email = some sampleEdit.editEmail ∧
      r.from_ = some sampleEdit.editFrom ∧ r.to_ = some sampleEdit.editTo ∧
      r.depart = some sampleEdit.editDepart ∧ r.return_ = some sampleEdit.editReturn ∧
      r.passengers = some (numOr1 sampleEdit.editPassengers) ∧
      r.klass = some sampleEdit.editClass ∧
      (∀ j, j ≠ i →
        (loadBookings (saveEditBooking sampleState sampleEdit []).1.localStorage)[j]?
          = (loadBookings sampleState.localStorage)[j]?) ∧
      (saveEditBooking sampleState sampleEdit []).2 = Toast.bookingUpdated :=
  ⟨⟨bookingAl, by decide, by decide⟩, by decide!,
   update_in_place sampleState sampleEdit [] ⟨bookingAl, by decide, by decide⟩⟩

/-- C6: when no stored record has the identifier of the edit dialog, the
save-edit handler reports "Booking not found" and the whole state, the stored
list included, is what it was. -/
theorem update_not_found (st : State) (e : EditForm) (search : JSString)
    (h : ∀ b ∈ loadBookings st.localStorage, b.id ≠ e.editId) :
    saveEditBooking st e search = (st, Toast.bookingNotFound) := by
  have hnone : findIndex (fun b => b.id == e.editId) (loadBookings st.localStorage) = none := by
    rw [findIndex_eq_none_iff]
    intro x hx
    simpa using h x hx
  simp only [saveEditBooking, hnone]

theorem update_not_found_witness :
    (∀ b ∈ loadBookings sampleState.localStorage,
      b.id ≠ ({ sampleEdit with editId := 1500 } : EditForm).editId) ∧
    saveEditBooking sampleState { sampleEdit with editId := 1500 } (lit "a")
      = (sampleState, Toast.bookingNotFound) :=
  ⟨by decide, update_not_found sampleState { sampleEdit with editId := 1500 } (lit "a")
    (by decide)⟩

/-! ## C7: deleting a stored record -/

/-- C7: `clearBooking(id)` stores the loaded list without the records whose
identifier is `id`: what remains are exactly the records with another identifier,
in their original relative order; when no record has that identifier the list
read back is the list that was loaded.  The function is total. -/
theorem clearBooking_removes (st : State) (id : ℕ) (search : JSString) :
    (clearBooking st id search).1.localStorage.aeroBookings
      = some ((loadBookings st.localStorage).filter (fun b => b.id != id)) ∧
    (loadBookings (clearBooking st id search).1.localStorage).Sublist
      (loadBookings st.localStorage) ∧
    (∀ b, b ∈ loadBookings (clearBooking st id search).1.localStorage ↔
      b ∈ loadBookings st.localStorage ∧ b.id ≠ id) ∧
    ((∀ b ∈ loadBookings st.localStorage, b.id ≠ id) →
      loadBookings (clearBooking st id search).1.localStorage = loadBookings st.localStorage) ∧
    (clearBooking st id search).1.localStorage.aeroDraft = st.localStorage.aeroDraft := by
  have hload : loadBookings (clearBooking st id search).1.localStorage
      = (loadBookings st.localStorage).filter (fun b => b.id != id) := by
    simp [clearBooking, renderBookingsList, loadBookings]
  refine ⟨?_, ?_, ?_, ?_, ?_⟩
  · simp [clearBooking, renderBookingsList, loadBookings]
  · rw [hload]
    exact List.filter_sublist _
  · intro b
    rw [hload, List.mem_filter]
    simp
  · intro hall
    rw [hload, List.filter_eq_self]
    intro b hb
    simpa using hall b hb
  · simp [clearBooking, renderBookingsList]

theorem clearBooking_removes_witness :
    loadBookings (clearBooking sampleState 1000 []).1.localStorage = [bookingAl] ∧
    (∀ b ∈ loadBookings sampleState.localStorage, b.id ≠ 1500) ∧
    loadBookings (clearBooking sampleState 1500 []).1.localStorage
      = loadBookings sampleState.localStorage :=
  ⟨by decide!, by decide, (clearBooking_removes sampleState 1500 []).2.2.2.1 (by decide)⟩

/-- The confirm-delete handler: with a target identifier other than `0` it does
what `clearBooking` does and resets the target; with no target, or target `0`, it
does nothing. -/
theorem confirmDeleteClick_eq (st : State) (search : JSString) :
    (∀ id, st.confirmDeleteTargetId = some id → id ≠ 0 →
      confirmDeleteClick st search
        = { (clearBooking st id search).1 with confirmDeleteTargetId := none }) ∧
    (st.confirmDeleteTargetId = none ∨ st.confirmDeleteTargetId = some 0 →
      confirmDeleteClick st search = st) := by
  constructor
  · intro id h hne
    simp [confirmDeleteClick, h, hne]
  · rintro (h | h) <;> simp [confirmDeleteClick, h]

/-! ## C8: search -/

theorem colLoop_eq (mk : ℕ → ℕ → Seat) (cols r : ℕ) :
    ∀ (fuel c : ℕ) (acc : List Seat), c + fuel = cols →
      colLoop mk cols r fuel c acc = acc ++ (List.range' c fuel).map (mk r) := by
  intro fuel
  induction fuel with
  | zero => intro c acc _; simp [colLoop]
  | succ fuel ih =>
    intro c acc h
    have hc : c < cols := by omega
    simp only [colLoop, hc, if_true]
    rw [ih (c + 1) _ (by omega), List.range'_succ]
    simp

theorem rowLoop_eq (mk : ℕ → ℕ → Seat) (rows cols : ℕ) :
    ∀ (fuel r : ℕ) (acc : List Seat), r + fuel = rows + 1 →
      rowLoop mk rows cols fuel r acc =
        acc ++ (List.range' r fuel).flatMap (fun r => (List.range cols).map (mk r)) := by
  intro fuel
  induction fuel with
  | zero => intro r acc _; simp [rowLoop]
  | succ fuel ih =>
    intro r acc h
    have hr : r ≤ rows := by omega
    simp only [rowLoop, hr, if_true]
    rw [ih (r + 1) _ (by omega), colLoop_eq mk cols r cols 0 acc (by omega), List.range'_succ,
      List.flatMap_cons, List.range_eq_range']
    simp

theorem renderSeatMap_eq (st : State) (rows cols : ℕ) (opts : SeatOpts) (coin : ℕ → ℕ → Bool) :
    renderSeatMap st rows cols opts coin =
      (List.range' 1 rows).flatMap (fun r => (List.range cols).map
        (seatButton (if opts.markBooked then getBookedSeats st.localStorage else [])
          st.selectedSeats opts coin r)) := by
  simp only [renderSeatMap]
  rw [rowLoop_eq _ rows cols rows 1 [] (by omega)]
  simp

theorem flatMap_blocks_length {β : Type} (f : ℕ → List β) (C : ℕ) (hf : ∀ r, (f r).length = C) :
    ∀ (R s : ℕ), ((List.range' s R).flatMap f).length = R * C := by
  intro R
  induction R with
  | zero => intro s; simp
  | succ R ih =>
    intro s
    rw [List.range'_succ, List.flatMap_cons, List.length_append, hf, ih]
    ring

theorem flatMap_blocks_getElem? {β : Type} (f : ℕ → List β) (C : ℕ)
    (hf : ∀ r, (f r).length = C) :
    ∀ (R s r c : ℕ), r < R → c < C →
      ((List.range' s R).flatMap f)[r * C + c]? = (f (s + r))[c]? := by
  intro R
  induction R with
  | zero => intro s r c hr; omega
  | succ R ih =>
    intro s r c hr hc
    rw [List.range'_succ, List.flatMap_cons]
    cases r with
    | zero =>
      rw [List.getElem?_append_left (by rw [hf]; omega)]
      simp
    | succ r =>
      rw [List.getElem?_append_right (by rw [hf, Nat.succ_mul]; omega), hf,
        show (r + 1) * C + c - C = r * C + c by rw [Nat.succ_mul]; omega,
        ih (s + 1) r c (by omega) hc]
      congr 2
      omega

theorem digitChar_toNat : ∀ k, k < 10 → (Nat.digitChar k).toNat = 48 + k := by decide

theorem toDigitsCore_value :
    ∀ (fuel n : ℕ) (ds : List Char), n < fuel →
      ((Nat.toDigitsCore 10 fuel n ds).map Char.toNat).foldl (fun a u => 10 * a + (u - 48)) 0
        = (ds.map Char.toNat).foldl (fun a u => 10 * a + (u - 48)) n := by
  intro fuel
  induction fuel with
  | zero => intro n ds h; omega
  | succ fuel ih =>
    intro n ds h
    have hd : (Nat.digitChar (n % 10)).toNat - 48 = n % 10 := by
      rw [digitChar_toNat _ (Nat.mod_lt _ (by norm_num))]
      omega
    by_cases hn : n / 10 = 0
    · simp only [Nat.toDigitsCore, hn, if_true, List.map_cons, List.foldl_cons, hd]
      have : 10 * 0 + n % 10 = n := by omega
      rw [this]
    · simp only [Nat.toDigitsCore, hn, if_false]
      rw [ih (n / 10) _ (by omega)]
      simp only [List.map_cons, List.foldl_cons, hd]
      have : 10 * (n / 10) + n % 10 = n := by omega
      rw [this]

theorem decimalValue_decimal (r : ℕ) : decimalValue (decimal r) = r := by
  simp only [decimalValue, decimal, Nat.toDigits]
  rw [toDigitsCore_value (r + 1) r [] (by omega)]
  simp

theorem seatLabel_inj (r c r' c' : ℕ) (hc : c < 65536) (hc' : c' < 65536)
    (h : seatLabel r c = seatLabel r' c') : r = r' ∧ c = c' := by
  simp only [seatLabel, fromCharCode] at h
  obtain ⟨h1, h2⟩ := List.append_inj' h rfl
  constructor
  · have := congrArg decimalValue h1
    simpa [decimalValue_decimal] using this
  · simp only [List.cons.injEq, and_true] at h2
    omega

theorem renderSeatMap_labels (st : State) (R C : ℕ) (opts : SeatOpts) (coin : ℕ → ℕ → Bool) :
    (renderSeatMap st R C opts coin).map Seat.label =
      (List.range' 1 R).flatMap (fun r => (List.range C).map (seatLabel r)) := by
  rw [renderSeatMap_eq, List.map_flatMap]
  congr 1
  funext r
  rw [List.map_map]
  rfl

theorem renderSeatMap_label_at (st : State) (R C : ℕ) (opts : SeatOpts) (coin : ℕ → ℕ → Bool)
    (r c : ℕ) (hr : r < R) (hc : c < C) :
    ((renderSeatMap st R C opts coin).map Seat.label)[r * C + c]?
      = some (seatLabel (1 + r) c) := by
  rw [renderSeatMap_labels, flatMap_blocks_getElem? _ C (by intro r; simp) R 1 r c hr hc,
    List.getElem?_map, List.getElem?_range hc]
  rfl

theorem renderSeatMap_length (st : State) (R C : ℕ) (opts : SeatOpts) (coin : ℕ → ℕ → Bool) :
    (renderSeatMap st R C opts coin).length = R * C := by
  rw [renderSeatMap_eq, flatMap_blocks_length _ C (by intro r; simp)]

theorem renderSeatMap_labels_nodup (st : State) (R C : ℕ) (opts : SeatOpts)
    (coin : ℕ → ℕ → Bool) (hC : C ≤ 65536) :
    ((renderSeatMap st R C opts coin).map Seat.label).Nodup := by
  rw [renderSeatMap_labels, List.nodup_flatMap]
  constructor
  · intro r _
    refine List.Nodup.map_on ?_ (List.nodup_range C)
    intro x hx y hy hxy
    rw [List.mem_range] at hx hy
    exact (seatLabel_inj r x r y (by omega) (by omega) hxy).2
  · refine List.Nodup.pairwise_of_forall_ne (List.nodup_range' 1 R) ?_
    intro a _ b _ hab
    simp only [Function.onFun]
    intro l hla hlb
    obtain ⟨x, hx, rfl⟩ := List.mem_map.1 hla
    obtain ⟨y, hy, hxy⟩ := List.mem_map.1 hlb
    rw [List.mem_range] at hx hy
    exact hab (seatLabel_inj b y a x (by omega) (by omega) hxy).1.symm

theorem renderSeatMap_at (st : State) (R C : ℕ) (opts : SeatOpts) (coin : ℕ → ℕ → Bool)
    (r c : ℕ) (hr : r < R) (hc : c < C) :
    (renderSeatMap st R C opts coin)[r * C + c]? =
      some (seatButton (if opts.markBooked then getBookedSeats st.localStorage else [])
        st.selectedSeats opts coin (1 + r) c) := by
  rw [renderSeatMap_eq, flatMap_blocks_getElem? _ C (by intro r; simp) R 1 r c hr hc,
    List.getElem?_map, List.getElem?_range hc]
  rfl

theorem renderSeatMap_button (st : State) (R C : ℕ) (opts : SeatOpts) (coin : ℕ → ℕ → Bool)
    (j : ℕ) (b : Seat) (h : (renderSeatMap st R C opts coin)[j]? = some b) :
    ∃ r c, b = seatButton (if opts.markBooked then getBookedSeats st.localStorage else [])
      st.selectedSeats opts coin r c := by
  have hm : b ∈ renderSeatMap st R C opts coin := List.mem_iff_getElem?.2 ⟨j, h⟩
  rw [renderSeatMap_eq, List.mem_flatMap] at hm
  obtain ⟨r, -, hm⟩ := hm
  obtain ⟨c, -, rfl⟩ := List.mem_map.1 hm
  exact ⟨r, c, rfl⟩

/-- C10 fails as stated: `String.fromCharCode` keeps its argument modulo `2^16`,
so in a map of one row and 65537 columns the seats of columns 0 and 65536 both
carry the label "1A". -/
theorem seatMap_label_collision :
    ((renderSeatMap emptyState 1 65537 ⟨true, false⟩ (fun _ _ => false)).map Seat.label)[0]?
      = some (lit "1A") ∧
    ((renderSeatMap emptyState 1 65537 ⟨true, false⟩ (fun _ _ => false)).map Seat.label)[65536]?
      = some (lit "1A") ∧
    ¬ ((renderSeatMap emptyState 1 65537 ⟨true, false⟩ (fun _ _ => false)).map
        Seat.label).Nodup := by
  have h0 : ((renderSeatMap emptyState 1 65537 ⟨true, false⟩ (fun _ _ => false)).map
      Seat.label)[0]? = some (lit "1A") :=
    (renderSeatMap_label_at emptyState 1 65537 ⟨true, false⟩ (fun _ _ => false) 0 0
      (by norm_num) (by norm_num)).trans (by decide)
  have h1 : ((renderSeatMap emptyState 1 65537 ⟨true, false⟩ (fun _ _ => false)).map
      Seat.label)[65536]? = some (lit "1A") :=
    (renderSeatMap_label_at emptyState 1 65537 ⟨true, false⟩ (fun _ _ => false) 0 65536
      (by norm_num) (by norm_num)).trans (by decide)
  refine ⟨h0, h1, ?_⟩
  intro hnd
  rw [List.nodup_iff_getElem?_ne_getElem?] at hnd
  refine hnd 0 65536 (by norm_num) ?_ (by rw [h0, h1])
  rw [List.length_map, renderSeatMap_length]
  norm_num

/-- C10, amended: with booked seats marked and no seat booked, the map of `R`
rows and `C` columns has exactly `R * C` seats, in row-major order (the seat of
row `r+1`, column `c` at position `r * C + c`), each labelled with the decimal
row number followed by the code unit `(65 + c) mod 2^16` (the letter `A`..`Z` for
`c < 26`), none of them occupied; the labels are pairwise distinct when
`C ≤ 65536`. -/
theorem seatMap_generated (st : State) (R C : ℕ) (opts : SeatOpts) (coin : ℕ → ℕ → Bool)
    (hmark : opts.markBooked = true) (hfree : getBookedSeats st.localStorage = []) :
    (renderSeatMap st R C opts coin).length = R * C ∧
    (∀ r c, r < R → c < C →
      ((renderSeatMap st R C opts coin).map Seat.label)[r * C + c]?
        = some (decimal (r + 1) ++ [(65 + c) % 65536])) ∧
    (∀ s ∈ renderSeatMap st R C opts coin, s.occupied = false) ∧
    (C ≤ 65536 → ((renderSeatMap st R C opts coin).map Seat.label).Nodup) := by
  refine ⟨renderSeatMap_length st R C opts coin, ?_, ?_, ?_⟩
  · intro r c hr hc
    rw [renderSeatMap_label_at st R C opts coin r c hr hc]
    simp [seatLabel, fromCharCode, Nat.add_comm]
  · intro s hs
    rw [renderSeatMap_eq, List.mem_flatMap] at hs
    obtain ⟨r, -, hs⟩ := hs
    obtain ⟨c, -, rfl⟩ := List.mem_map.1 hs
    simp [seatButton, hmark, hfree]
  · intro hC
    exact renderSeatMap_labels_nodup st R C opts coin hC

theorem seatMap_generated_witness :
    (⟨true, false⟩ : SeatOpts).markBooked = true ∧
    getBookedSeats emptyState.localStorage = [] ∧
    (renderSeatMap emptyState 2 3 ⟨true, false⟩ (fun _ _ => true)).map Seat.label
      = [lit "1A", lit "1B", lit "1C", lit "2A", lit "2B", lit "2C"] ∧
    (renderSeatMap emptyState 2 3 ⟨true, false⟩ (fun _ _ => true)).length = 2 * 3 ∧
    (∀ s ∈ renderSeatMap emptyState 2 3 ⟨true, false⟩ (fun _ _ => true), s.occupied = false) ∧
    ((renderSeatMap emptyState 2 3 ⟨true, false⟩ (fun _ _ => true)).map Seat.label).Nodup :=
  ⟨rfl, by decide, by decide,
   (seatMap_generated emptyState 2 3 ⟨true, false⟩ (fun _ _ => true) rfl (by decide)).1,
   (seatMap_generated emptyState 2 3 ⟨true, false⟩ (fun _ _ => true) rfl (by decide)).2.2.1,
   (seatMap_generated emptyState 2 3 ⟨true, false⟩ (fun _ _ => true) rfl (by decide)).2.2.2
     (by decide)⟩

/-! ## C11, C12: toggling seats -/

theorem clickSeat_free (opts : SeatOpts) (buttons : List Seat) (sel : List JSString) (i : ℕ)
    (b : Seat) (hro : opts.readOnly = false) (hb : buttons[i]? = some b)
    (ho : b.occupied = false) :
    clickSeat opts buttons sel i =
      (buttons.set i { b with selected := !b.selected },
       if b.selected = true then sel.filter (fun x => x != b.label)
       else if sel.contains b.label then sel else sel ++ [b.label]) := by
  simp only [clickSeat, hro, hb, ho]
  cases hs : b.selected <;> simp

theorem clickSeat_cases (opts : SeatOpts) (buttons : List Seat) (sel : List JSString) (i : ℕ) :
    clickSeat opts buttons sel i = (buttons, sel) ∨
    ∃ b, opts.readOnly = false ∧ buttons[i]? = some b ∧ b.occupied = false := by
  cases hro : opts.readOnly with
  | true => left; simp [clickSeat, hro]
  | false =>
    cases hb : buttons[i]? with
    | none => left; simp [clickSeat, hro, hb]
    | some b =>
      cases ho : b.occupied with
      | true => left; simp [clickSeat, hro, hb, ho]
      | false => right; exact ⟨b, rfl, rfl, ho⟩

theorem clickSeat_occupied (opts : SeatOpts) (buttons : List Seat) (sel : List JSString) (i : ℕ)
    (b : Seat) (hb : buttons[i]? = some b) (ho : b.occupied = true) :
    clickSeat opts buttons sel i = (buttons, sel) := by
  rcases clickSeat_cases opts buttons sel i with h | ⟨x, -, hx, hxo⟩
  · exact h
  · rw [hb] at hx
    cases hx
    rw [ho] at hxo
    cases hxo

theorem clickSeats_snoc (opts : SeatOpts) (buttons : List Seat) (sel : List JSString)
    (clicks : List ℕ) (i : ℕ) :
    clickSeats opts buttons sel (clicks ++ [i]) =
      clickSeat opts (clickSeats opts buttons sel clicks).1 (clickSeats opts buttons sel clicks).2
        i := by
  simp [clickSeats, List.foldl_append]

theorem set_getElem?_same {α : Type} (l : List α) (i : ℕ) (a : α) (h : l[i]? = some a) :
    l.set i a = l := by
  apply List.ext_getElem?
  intro j
  rw [List.getElem?_set]
  split_ifs with hij hlt
  · subst hij
    exact h.symm
  · subst hij
    have := (List.getElem?_eq_some.1 h).1
    omega
  · rfl

theorem map_set_same {α β : Type} (f : α → β) (l : List α) (i : ℕ) (a b : α)
    (h : l[i]? = some a) (hf : f b = f a) : (l.set i b).map f = l.map f := by
  rw [List.map_set, hf]
  apply set_getElem?_same
  rw [List.getElem?_map, h]
  rfl

theorem clickSeat_map_label (opts : SeatOpts) (buttons : List Seat) (sel : List JSString)
    (i : ℕ) : (clickSeat opts buttons sel i).1.map Seat.label = buttons.map Seat.label := by
  rcases clickSeat_cases opts buttons sel i with h | ⟨b, hro, hb, ho⟩
  · rw [h]
  · rw [clickSeat_free opts buttons sel i b hro hb ho]
    exact map_set_same Seat.label buttons i b _ hb rfl

theorem clickSeat_map_occupied (opts : SeatOpts) (buttons : List Seat) (sel : List JSString)
    (i : ℕ) : (clickSeat opts buttons sel i).1.map Seat.occupied = buttons.map Seat.occupied := by
  rcases clickSeat_cases opts buttons sel i with h | ⟨b, hro, hb, ho⟩
  · rw [h]
  · rw [clickSeat_free opts buttons sel i b hro hb ho]
    exact map_set_same Seat.occupied buttons i b _ hb rfl

theorem clickSeat_marks (opts : SeatOpts) (buttons : List Seat) (sel : List JSString) (i : ℕ)
    (h : ∀ (j : ℕ) (b : Seat), buttons[j]? = some b → b.occupied = true → b.selected = false) :
    ∀ (j : ℕ) (b : Seat), (clickSeat opts buttons sel i).1[j]? = some b → b.occupied = true →
      b.selected = false := by
  rcases clickSeat_cases opts buttons sel i with hc | ⟨x, hro, hx, hxo⟩
  · rw [hc]
    exact h
  · rw [clickSeat_free opts buttons sel i x hro hx hxo]
    intro j b hb hbo
    simp only [List.getElem?_set] at hb
    split_ifs at hb with hij hlt
    · cases hb
      simp [hxo] at hbo
    · exact h j b hb hbo

theorem label_ne_of_nodup (buttons : List Seat) (hn : (buttons.map Seat.label).Nodup)
    (i j : ℕ) (b x : Seat) (hb : buttons[i]? = some b) (hx : buttons[j]? = some x)
    (hij : i ≠ j) : b.label ≠ x.label := by
  have hi : (buttons.map Seat.label)[i]? = some b.label := by rw [List.getElem?_map, hb]; rfl
  have hj : (buttons.map Seat.label)[j]? = some x.label := by rw [List.getElem?_map, hx]; rfl
  have hlen : ∀ k y, (buttons.map Seat.label)[k]? = some y → k < (buttons.map Seat.label).length :=
    fun k y hk => (List.getElem?_eq_some.1 hk).1
  rw [List.nodup_iff_getElem?_ne_getElem?] at hn
  intro heq
  rcases Nat.lt_or_gt_of_ne hij with hlt | hgt
  · exact hn i j hlt (hlen j _ hj) (by rw [hi, hj, heq])
  · exact hn j i hgt (hlen i _ hi) (by rw [hi, hj, heq])

theorem mem_toggled (sel : List JSString) (s l : JSString) (m : Bool) :
    l ∈ (if m = true then sel.filter (fun x => x != s)
         else if sel.contains s then sel else sel ++ [s]) ↔
      (if m = true then l ∈ sel ∧ l ≠ s else l ∈ sel ∨ l = s) := by
  cases m with
  | true => simp [List.mem_filter]
  | false =>
    by_cases hs : s ∈ sel
    · have hc : sel.contains s = true := by simpa using hs
      simp only [Bool.false_eq_true, if_false, hc, if_true]
      constructor
      · exact Or.inl
      · rintro (h | rfl)
        · exact h
        · exact hs
    · have hc : sel.contains s = false := by simpa using hs
      simp only [Bool.false_eq_true, if_false, hc, List.mem_append, List.mem_singleton]

theorem clickSeat_sync (opts : SeatOpts) (buttons : List Seat) (sel : List JSString) (i : ℕ)
    (hn : (buttons.map Seat.label).Nodup)
    (hs : ∀ (j : ℕ) (b : Seat), buttons[j]? = some b → b.occupied = false →
      (b.selected = true ↔ b.label ∈ sel)) :
    ∀ (j : ℕ) (b : Seat), (clickSeat opts buttons sel i).1[j]? = some b → b.occupied = false →
      (b.selected = true ↔ b.label ∈ (clickSeat opts buttons sel i).2) := by
  rcases clickSeat_cases opts buttons sel i with hc | ⟨x, hro, hx, hxo⟩
  · rw [hc]
    exact hs
  · rw [clickSeat_free opts buttons sel i x hro hx hxo]
    intro j b hb hbo
    simp only [List.getElem?_set] at hb
    rw [mem_toggled]
    split_ifs at hb with hij hlt
    · cases hb
      cases hsel : x.selected <;> simp
    · have hne : b.label ≠ x.label :=
        (label_ne_of_nodup buttons hn i j x b hx hb hij).symm
      rw [hs j b hb hbo]
      cases hsel : x.selected <;> simp [hne]

theorem clickSeat_mem (opts : SeatOpts) (buttons : List Seat) (sel : List JSString) (i : ℕ)
    (l : JSString) (hl : l ∈ (clickSeat opts buttons sel i).2) :
    l ∈ sel ∨ ∃ b, buttons[i]? = some b ∧ b.occupied = false ∧ l = b.label := by
  rcases clickSeat_cases opts buttons sel i with hc | ⟨x, hro, hx, hxo⟩
  · rw [hc] at hl
    exact Or.inl hl
  · rw [clickSeat_free opts buttons sel i x hro hx hxo, mem_toggled] at hl
    cases hsel : x.selected
    · simp only [hsel, Bool.false_eq_true, if_false] at hl
      rcases hl with h | h
      · exact Or.inl h
      · exact Or.inr ⟨x, hx, hxo, h⟩
    · simp only [hsel, if_true] at hl
      exact Or.inl hl.1

theorem seatButton_selected (booked sel : List JSString) (opts : SeatOpts)
    (coin : ℕ → ℕ → Bool) (r c : ℕ) :
    (seatButton booked sel opts coin r c).selected =
      (sel.contains (seatButton booked sel opts coin r c).label &&
        !(seatButton booked sel opts coin r c).occupied) := rfl

theorem seatSession_snoc (st : State) (R C : ℕ) (opts : SeatOpts) (coin : ℕ → ℕ → Bool)
    (clicks : List ℕ) (i : ℕ) :
    seatSession st R C opts coin (clicks ++ [i]) =
      clickSeat opts (seatSession st R C opts coin clicks).1
        (seatSession st R C opts coin clicks).2 i := by
  simp only [seatSession, clickSeats_snoc]

theorem seatSession_frame (st : State) (R C : ℕ) (opts : SeatOpts) (coin : ℕ → ℕ → Bool)
    (clicks : List ℕ) :
    (seatSession st R C opts coin clicks).1.map Seat.label
        = (renderSeatMap st R C opts coin).map Seat.label ∧
      (seatSession st R C opts coin clicks).1.map Seat.occupied
        = (renderSeatMap st R C opts coin).map Seat.occupied ∧
      ∀ (j : ℕ) (b : Seat), (seatSession st R C opts coin clicks).1[j]? = some b →
        b.occupied = true → b.selected = false := by
  induction clicks using List.reverseRecOn with
  | nil =>
    refine ⟨rfl, rfl, ?_⟩
    intro j b hb ho
    obtain ⟨r, c, rfl⟩ := renderSeatMap_button st R C opts coin j b hb
    rw [seatButton_selected, ho]
    simp
  | append_singleton clicks i ih =>
    rw [seatSession_snoc]
    refine ⟨?_, ?_, ?_⟩
    · rw [clickSeat_map_label, ih.1]
    · rw [clickSeat_map_occupied, ih.2.1]
    · exact clickSeat_marks opts _ _ i ih.2.2

theorem seatSession_sync (st : State) (R C : ℕ) (opts : SeatOpts) (coin : ℕ → ℕ → Bool)
    (clicks : List ℕ) (hC : C ≤ 65536) :
    (∀ (j : ℕ) (b : Seat), (seatSession st R C opts coin clicks).1[j]? = some b →
        b.occupied = false →
        (b.selected = true ↔ b.label ∈ (seatSession st R C opts coin clicks).2)) ∧
      ∀ (j : ℕ) (b : Seat), (seatSession st R C opts coin clicks).1[j]? = some b →
        b.occupied = true → b.label ∈ (seatSession st R C opts coin clicks).2 →
        b.label ∈ st.selectedSeats := by
  induction clicks using List.reverseRecOn with
  | nil =>
    constructor
    · intro j b hb ho
      obtain ⟨r, c, rfl⟩ := renderSeatMap_button st R C opts coin j b hb
      rw [seatButton_selected, ho]
      simp [seatSession, clickSeats]
    · intro j b _ _ hmem
      exact hmem
  | append_singleton clicks i ih =>
    have hn : ((seatSession st R C opts coin clicks).1.map Seat.label).Nodup := by
      rw [(seatSession_frame st R C opts coin clicks).1]
      exact renderSeatMap_labels_nodup st R C opts coin hC
    rw [seatSession_snoc]
    constructor
    · exact clickSeat_sync opts _ _ i hn ih.1
    · intro j b hb ho hmem
      have hlab := congrArg (fun l => l[j]?) (clickSeat_map_label opts
        (seatSession st R C opts coin clicks).1 (seatSession st R C opts coin clicks).2 i)
      have hocc := congrArg (fun l => l[j]?) (clickSeat_map_occupied opts
        (seatSession st R C opts coin clicks).1 (seatSession st R C opts coin clicks).2 i)
      simp only [List.getElem?_map, hb, Option.map_some'] at hlab hocc
      cases hx : (seatSession st R C opts coin clicks).1[j]? with
      | none => simp [hx] at hlab
      | some x =>
        simp only [hx, Option.map_some', Option.some.injEq] at hlab hocc
        rcases clickSeat_mem opts _ _ i b.label hmem with h | ⟨y, hy, hyo, hyl⟩
        · rw [hlab]
          exact ih.2 j x hx (by rw [← hocc, ho]) (by rw [← hlab]; exact h)
        · exfalso
          by_cases hij : i = j
          · subst hij
            rw [hy] at hx
            cases hx
            rw [← hocc, ho] at hyo
            cases hyo
          · exact label_ne_of_nodup _ hn i j y x hy hx hij (by rw [← hyl, hlab])

theorem clickSeats_same_label (opts : SeatOpts) (m : List Seat) (i j : ℕ) (s : JSString)
    (hro : opts.readOnly = false) (hij : i ≠ j)
    (hi : m[i]? = some ⟨s, false, false⟩) (hj : m[j]? = some ⟨s, false, false⟩) :
    (clickSeats opts m [] [i]).2 = [s] ∧
    (clickSeats opts m [] [i]).1[j]? = some ⟨s, false, false⟩ ∧
    (clickSeats opts m [] [i, j]).2 = [s] := by
  have h1 : clickSeat opts m [] i = (m.set i ⟨s, false, true⟩, [s]) := by
    rw [clickSeat_free opts m [] i ⟨s, false, false⟩ hro hi rfl]
    simp
  have hj' : (m.set i ⟨s, false, true⟩)[j]? = some ⟨s, false, false⟩ := by
    rw [List.getElem?_set_ne hij, hj]
  have h2 : clickSeat opts (m.set i ⟨s, false, true⟩) [s] j =
      ((m.set i ⟨s, false, true⟩).set j ⟨s, false, true⟩, [s]) := by
    rw [clickSeat_free opts _ [s] j ⟨s, false, false⟩ hro hj' rfl]
    simp
  refine ⟨?_, ?_, ?_⟩
  · simp only [clickSeats, List.foldl_cons, List.foldl_nil, h1]
  · simp only [clickSeats, List.foldl_cons, List.foldl_nil, h1]
    exact hj'
  · simp only [clickSeats, List.foldl_cons, List.foldl_nil, h1, h2]

/-- C11 fails as stated.  With seat 1A both stored in a booking and in the
selection, the rendered map marks 1A occupied and the selection still holds 1A,
also after further toggles.  And in a map of 65537 columns, where the seats of
columns 0 and 65536 share the label "1A", a click on the first puts "1A" in the
selection and a click on the second, a non-occupied seat, leaves "1A" in it.  In
a read-only map a click on the free seat 1C changes nothing. -/
theorem toggle_not_as_stated :
    (renderSeatMap staleState 8 6 ⟨true, false⟩ (fun _ _ => false))[0]?
      = some ⟨lit "1A", true, false⟩ ∧
    lit "1A" ∈ (seatSession staleState 8 6 ⟨true, false⟩ (fun _ _ => false) []).2 ∧
    (seatSession staleState 8 6 ⟨true, false⟩ (fun _ _ => false) [0, 1]).2
      = [lit "1A", lit "1B"] ∧
    (seatSession emptyState 1 65537 ⟨true, false⟩ (fun _ _ => false) [0]).2 = [lit "1A"] ∧
    (seatSession emptyState 1 65537 ⟨true, false⟩ (fun _ _ => false) [0]).1[65536]?
      = some ⟨lit "1A", false, false⟩ ∧
    (seatSession emptyState 1 65537 ⟨true, false⟩ (fun _ _ => false) [0, 65536]).2
      = [lit "1A"] ∧
    (seatSession twoSeatsState 8 6 ⟨true, true⟩ (fun _ _ => false) [2]).2
      = [lit "1A", lit "1B"] := by
  have h0 : (renderSeatMap emptyState 1 65537 ⟨true, false⟩ (fun _ _ => false))[0]?
      = some ⟨lit "1A", false, false⟩ :=
    (renderSeatMap_at emptyState 1 65537 ⟨true, false⟩ (fun _ _ => false) 0 0
      (by norm_num) (by norm_num)).trans (by decide)
  have h1 : (renderSeatMap emptyState 1 65537 ⟨true, false⟩ (fun _ _ => false))[65536]?
      = some ⟨lit "1A", false, false⟩ :=
    (renderSeatMap_at emptyState 1 65537 ⟨true, false⟩ (fun _ _ => false) 0 65536
      (by norm_num) (by norm_num)).trans (by decide)
  obtain ⟨c1, c2, c3⟩ :=
    clickSeats_same_label ⟨true, false⟩ _ 0 65536 (lit "1A") rfl (by norm_num) h0 h1
  exact ⟨by decide, by decide, by decide, c1, c2, c3, by decide⟩

/-- C11, amended: after rendering and any sequence of clicks, a click on an
occupied seat changes neither the map nor the selection, and no seat carries both
the occupied and the selected mark.  In an interactive map of at most 65536
columns, a click on a non-occupied seat flips the membership of its label in the
selection and leaves the membership of every other label as it was, and the label
of an occupied seat is in the selection only if it already was when the map was
rendered. -/
theorem seat_toggle (st : State) (R C : ℕ) (opts : SeatOpts) (coin : ℕ → ℕ → Bool)
    (clicks : List ℕ) :
    (∀ (i : ℕ) (b : Seat), (seatSession st R C opts coin clicks).1[i]? = some b →
      b.occupied = true →
      seatSession st R C opts coin (clicks ++ [i]) = seatSession st R C opts coin clicks) ∧
    (∀ b ∈ (seatSession st R C opts coin clicks).1,
      ¬ (b.occupied = true ∧ b.selected = true)) ∧
    (opts.readOnly = false → C ≤ 65536 →
      (∀ (i : ℕ) (b : Seat), (seatSession st R C opts coin clicks).1[i]? = some b →
        b.occupied = false →
        (b.label ∈ (seatSession st R C opts coin (clicks ++ [i])).2 ↔
          b.label ∉ (seatSession st R C opts coin clicks).2) ∧
        ∀ l : JSString, l ≠ b.label →
          (l ∈ (seatSession st R C opts coin (clicks ++ [i])).2 ↔
            l ∈ (seatSession st R C opts coin clicks).2)) ∧
      (∀ b ∈ (seatSession st R C opts coin clicks).1, b.occupied = true →
        b.label ∈ (seatSession st R C opts coin clicks).2 → b.label ∈ st.selectedSeats)) := by
  refine ⟨?_, ?_, ?_⟩
  · intro i b hb ho
    rw [seatSession_snoc]
    exact clickSeat_occupied opts _ _ i b hb ho
  · intro b hb hboth
    obtain ⟨j, hj⟩ := List.mem_iff_getElem?.1 hb
    have := (seatSession_frame st R C opts coin clicks).2.2 j b hj hboth.1
    rw [hboth.2] at this
    cases this
  · intro hro hC
    obtain ⟨hsync, hstale⟩ := seatSession_sync st R C opts coin clicks hC
    constructor
    · intro i b hb ho
      rw [seatSession_snoc, clickSeat_free opts _ _ i b hro hb ho]
      have hb' := hsync i b hb ho
      constructor
      · rw [mem_toggled]
        cases hsel : b.selected
        · rw [hsel] at hb'
          simpa using hb'
        · rw [hsel] at hb'
          simpa using hb'
      · intro l hl
        rw [mem_toggled]
        cases hsel : b.selected <;> simp [hl]
    · intro b hb ho hmem
      obtain ⟨j, hj⟩ := List.mem_iff_getElem?.1 hb
      exact hstale j b hj ho hmem

theorem seat_toggle_witness :
    (seatSession sampleState 8 6 ⟨true, false⟩ (fun _ _ => false) [1, 8]).2
      = [lit "1B"] ∧
    (seatSession sampleState 8 6 ⟨true, false⟩ (fun _ _ => false) [1, 8]).1[7]?
      = some ⟨lit "2B", false, false⟩ ∧
    (lit "2B" ∈ (seatSession sampleState 8 6 ⟨true, false⟩ (fun _ _ => false)
        ([1, 8] ++ [7])).2 ↔
      lit "2B" ∉ (seatSession sampleState 8 6 ⟨true, false⟩ (fun _ _ => false) [1, 8]).2) :=
  ⟨by decide, by decide,
   (((seat_toggle sampleState 8 6 ⟨true, false⟩ (fun _ _ => false) [1, 8]).2.2 rfl
      (by decide)).1 7 ⟨lit "2B", false, false⟩ (by decide) rfl).1⟩

theorem clickSeat_twice (opts : SeatOpts) (buttons : List Seat) (sel : List JSString) (i : ℕ)
    (b : Seat) (hro : opts.readOnly = false) (hb : buttons[i]? = some b)
    (ho : b.occupied = false) (hsel : b.selected = true) :
    clickSeat opts (clickSeat opts buttons sel i).1 (clickSeat opts buttons sel i).2 i =
      (buttons, sel.filter (fun x => x != b.label) ++ [b.label]) := by
  have hlt : i < buttons.length := (List.getElem?_eq_some.1 hb).1
  rw [clickSeat_free opts buttons sel i b hro hb ho]
  simp only [hsel, if_true, Bool.not_true]
  rw [clickSeat_free opts _ _ i ⟨b.label, b.occupied, false⟩ hro
    (List.getElem?_set_self hlt) ho]
  have hnot : (sel.filter (fun x => x != b.label)).contains b.label = false := by
    simp [List.mem_filter]
  simp only [Bool.false_eq_true, if_false, hnot, Bool.not_false, List.set_set]
  congr 1
  apply set_getElem?_same
  rw [hb, ← hsel]

theorem clickSeats_same_label_twice (opts : SeatOpts) (m : List Seat) (i j : ℕ) (s : JSString)
    (hro : opts.readOnly = false) (hij : i ≠ j)
    (hi : m[i]? = some ⟨s, false, false⟩) (hj : m[j]? = some ⟨s, false, false⟩) :
    (clickSeats opts m [] [i]).2 = [s] ∧
    (clickSeats opts m [] [i]).1[j]? = some ⟨s, false, false⟩ ∧
    (clickSeats opts m [] [i, j, j]).2 = [] := by
  have hjlt : j < m.length := (List.getElem?_eq_some.1 hj).1
  have h1 : clickSeat opts m [] i = (m.set i ⟨s, false, true⟩, [s]) := by
    rw [clickSeat_free opts m [] i ⟨s, false, false⟩ hro hi rfl]
    simp
  have hj' : (m.set i ⟨s, false, true⟩)[j]? = some ⟨s, false, false⟩ := by
    rw [List.getElem?_set_ne hij, hj]
  have h2 : clickSeat opts (m.set i ⟨s, false, true⟩) [s] j =
      ((m.set i ⟨s, false, true⟩).set j ⟨s, false, true⟩, [s]) := by
    rw [clickSeat_free opts _ [s] j ⟨s, false, false⟩ hro hj' rfl]
    simp
  have hj'' : ((m.set i ⟨s, false, true⟩).set j ⟨s, false, true⟩)[j]?
      = some ⟨s, false, true⟩ :=
    List.getElem?_set_self (by simpa using hjlt)
  have h3 : (clickSeat opts ((m.set i ⟨s, false, true⟩).set j ⟨s, false, true⟩) [s] j).2
      = [] := by
    rw [clickSeat_free opts _ [s] j ⟨s, false, true⟩ hro hj'' rfl]
    simp
  refine ⟨?_, ?_, ?_⟩
  · simp only [clickSeats, List.foldl_cons, List.foldl_nil, h1]
  · simp only [clickSeats, List.foldl_cons, List.foldl_nil, h1]
    exact hj'
  · simp only [clickSeats, List.foldl_cons, List.foldl_nil, h1, h2, h3]

/-- C12 fails as stated: with 1A and 1B selected in this order, toggling seat 1A
twice leaves the selection as the list 1B, 1A.  And in a map of 65537 columns,
once the seat of column 0 is selected, the selection holds "1A", the label also of
the seat of column 65536; toggling that seat twice empties the selection. -/
theorem toggle_twice_not_as_stated :
    twoSeatsState.selectedSeats = [lit "1A", lit "1B"] ∧
    (renderSeatMap twoSeatsState 8 6 ⟨true, false⟩ (fun _ _ => false))[0]?
      = some ⟨lit "1A", false, true⟩ ∧
    (seatSession twoSeatsState 8 6 ⟨true, false⟩ (fun _ _ => false) [0, 0]).2
      = [lit "1B", lit "1A"] ∧
    (seatSession twoSeatsState 8 6 ⟨true, false⟩ (fun _ _ => false) [0, 0]).2
      ≠ twoSeatsState.selectedSeats ∧
    (seatSession emptyState 1 65537 ⟨true, false⟩ (fun _ _ => false) [0]).2 = [lit "1A"] ∧
    (seatSession emptyState 1 65537 ⟨true, false⟩ (fun _ _ => false) [0]).1[65536]?
      = some ⟨lit "1A", false, false⟩ ∧
    (seatSession emptyState 1 65537 ⟨true, false⟩ (fun _ _ => false) [0, 65536, 65536]).2
      = [] := by
  have h0 : (renderSeatMap emptyState 1 65537 ⟨true, false⟩ (fun _ _ => false))[0]?
      = some ⟨lit "1A", false, false⟩ :=
    (renderSeatMap_at emptyState 1 65537 ⟨true, false⟩ (fun _ _ => false) 0 0
      (by norm_num) (by norm_num)).trans (by decide)
  have h1 : (renderSeatMap emptyState 1 65537 ⟨true, false⟩ (fun _ _ => false))[65536]?
      = some ⟨lit "1A", false, false⟩ :=
    (renderSeatMap_at emptyState 1 65537 ⟨true, false⟩ (fun _ _ => false) 0 65536
      (by norm_num) (by norm_num)).trans (by decide)
  exact ⟨by decide, by decide, by decide, by decide,
    clickSeats_same_label_twice ⟨true, false⟩ _ 0 65536 (lit "1A") rfl (by norm_num) h0 h1⟩

/-- C12, amended: in a map of at most 65536 columns, after rendering and any
sequence of clicks, toggling twice a seat whose label is in the selection brings
back the map and the same set of selected labels; as a list the selection is
unchanged when the seat is occupied or the map read-only, and otherwise it is the
prior list with that label taken out and put at the end, which is the prior list
when the label was its last element and occurred once. -/
theorem toggle_twice (st : State) (R C : ℕ) (opts : SeatOpts) (coin : ℕ → ℕ → Bool)
    (clicks : List ℕ) (i : ℕ) (b : Seat) (hC : C ≤ 65536)
    (hb : (seatSession st R C opts coin clicks).1[i]? = some b)
    (hmem : b.label ∈ (seatSession st R C opts coin clicks).2) :
    (seatSession st R C opts coin (clicks ++ [i] ++ [i])).1
      = (seatSession st R C opts coin clicks).1 ∧
    (∀ l : JSString, l ∈ (seatSession st R C opts coin (clicks ++ [i] ++ [i])).2 ↔
      l ∈ (seatSession st R C opts coin clicks).2) ∧
    (seatSession st R C opts coin (clicks ++ [i] ++ [i])).2 =
      (if b.occupied = true ∨ opts.readOnly = true then (seatSession st R C opts coin clicks).2
       else (seatSession st R C opts coin clicks).2.filter (fun x => x != b.label)
         ++ [b.label]) ∧
    (∀ init : List JSString, (seatSession st R C opts coin clicks).2 = init ++ [b.label] →
      b.label ∉ init →
      (seatSession st R C opts coin (clicks ++ [i] ++ [i])).2
        = (seatSession st R C opts coin clicks).2) := by
  rw [seatSession_snoc, seatSession_snoc]
  have key : clickSeat opts
      (clickSeat opts (seatSession st R C opts coin clicks).1
        (seatSession st R C opts coin clicks).2 i).1
      (clickSeat opts (seatSession st R C opts coin clicks).1
        (seatSession st R C opts coin clicks).2 i).2 i =
      ((seatSession st R C opts coin clicks).1,
       if b.occupied = true ∨ opts.readOnly = true then (seatSession st R C opts coin clicks).2
       else (seatSession st R C opts coin clicks).2.filter (fun x => x != b.label)
         ++ [b.label]) := by
    cases hro : opts.readOnly with
    | true => simp [clickSeat, hro]
    | false =>
      cases ho : b.occupied with
      | true =>
        rw [clickSeat_occupied opts _ _ i b hb ho, clickSeat_occupied opts _ _ i b hb ho]
        simp
      | false =>
        have hsel : b.selected = true :=
          ((seatSession_sync st R C opts coin clicks hC).1 i b hb ho).2 hmem
        rw [clickSeat_twice opts _ _ i b hro hb ho hsel]
        simp
  rw [key]
  refine ⟨rfl, ?_, rfl, ?_⟩
  · intro l
    simp only
    split_ifs with h
    · rfl
    · simp only [List.mem_append, List.mem_filter, List.mem_singleton]
      constructor
      · rintro (⟨hl, -⟩ | rfl)
        · exact hl
        · exact hmem
      · intro hl
        by_cases hlb : l = b.label
        · exact Or.inr hlb
        · exact Or.inl ⟨hl, by simpa using hlb⟩
  · intro init hinit hni
    simp only
    split_ifs with h
    · rfl
    · have h1 : init.filter (fun x => x != b.label) = init := by
        rw [List.filter_eq_self]
        intro x hx
        have : x ≠ b.label := fun hxb => hni (hxb ▸ hx)
        simpa using this
      have h2 : [b.label].filter (fun x => x != b.label) = [] := by simp
      rw [hinit, List.filter_append, h1, h2, List.append_nil]

theorem toggle_twice_witness :
    (6 : ℕ) ≤ 65536 ∧
    (seatSession twoSeatsState 8 6 ⟨true, false⟩ (fun _ _ => false) [2]).2
      = [lit "1A", lit "1B", lit "1C"] ∧
    (seatSession twoSeatsState 8 6 ⟨true, false⟩ (fun _ _ => false) ([2] ++ [2] ++ [2])).2
      = (seatSession twoSeatsState 8 6 ⟨true, false⟩ (fun _ _ => false) [2]).2 :=
  ⟨by decide, by decide,
   (toggle_twice twoSeatsState 8 6 ⟨true, false⟩ (fun _ _ => false) [2] 2
      ⟨lit "1C", false, true⟩ (by decide) (by decide) (by decide)).2.2.2
      [lit "1A", lit "1B"] (by decide) (by decide)⟩

/-! ## C13: export to CSV -/

theorem foldl_push {α β : Type} (f : α → β) (l : List α) (init : List β) :
    l.foldl (fun acc b => acc ++ [f b]) init = init ++ l.map f := by
  induction l generalizing init with
  | nil => simp
  | cons a l ih => simp [ih]

theorem joinWith_cons (sep x : JSString) (xs : List JSString) :
    joinWith sep (x :: xs) = x ++ xs.flatMap (fun y => sep ++ y) := by
  induction xs generalizing x with
  | nil => simp [joinWith]
  | cons y ys ih =>
    rw [joinWith, ih]
    simp

theorem seatPrice_known (key : JSString) (h : key ∉ objectPrototypeKeys) :
    valOr (seatPricing key) (seatPricing (lit "economy")) =
      JSVal.number (if key = lit "business" then 100 else if key = lit "first" then 200
        else 50) := by
  have e1 : seatPricing (lit "economy") = JSVal.number 50 := by decide
  have e2 : seatPricing (lit "business") = JSVal.number 100 := by decide
  have e3 : seatPricing (lit "first") = JSVal.number 200 := by decide
  have hfb : ¬ lit "first" = lit "business" := by decide
  by_cases hb : key = lit "business"
  · subst hb
    rw [e1, e2]
    simp [valOr]
  · by_cases hf : key = lit "first"
    · subst hf
      rw [e1, e3]
      simp [valOr, hfb]
    · rw [e1, if_neg hb, if_neg hf]
      unfold seatPricing
      by_cases he : key = lit "economy"
      · simp [he, valOr]
      · simp [he, hb, hf, h, valOr]

theorem stringOf_eq_lit (k : Option JSString) (t : String) (ht : lit "undefined" ≠ lit t) :
    stringOf k = lit t ↔ k = some (lit t) := by
  cases k with
  | none => simp [stringOf, ht]
  | some x => simp [stringOf]

theorem seatsSummary_eq_spec (fmt : Option ℚ → JSString) (b : Booking)
    (hs : b.seats.getD [] ≠ []) (hk : stringOf b.klass ∉ objectPrototypeKeys) :
    seatsSummary fmt b = specSeatSummary fmt b := by
  have hlen : (b.seats.getD []).length ≠ 0 := by
    simpa [List.length_eq_zero] using hs
  have hprice : (if stringOf b.klass = lit "business" then (100 : ℚ)
      else if stringOf b.klass = lit "first" then 200 else 50) = specPerSeatPrice b.klass := by
    simp only [specPerSeatPrice, stringOf_eq_lit b.klass "business" (by decide),
      stringOf_eq_lit b.klass "first" (by decide)]
  have hplural : lit " seat" ++ (if (b.seats.getD []).length > 1 then lit "s" else [])
      = (if (b.seats.getD []).length = 1 then lit " seat" else lit " seats") := by
    have e : lit " seat" ++ lit "s" = lit " seats" := by decide
    by_cases h1 : (b.seats.getD []).length = 1
    · simp [h1]
    · have : (b.seats.getD []).length > 1 := by omega
      simp [h1, this, e]
  have hparen : ∀ x : JSString, lit " (" ++ (lit "₦" ++ x) = lit " (₦" ++ x := by
    intro x
    have e : lit " (" ++ lit "₦" = lit " (₦" := by decide
    rw [← List.append_assoc, e]
  simp only [seatsSummary, specSeatSummary, hlen, ne_eq, not_false_eq_true, if_true,
    seatPrice_known _ hk, valTimes, formatPrice, hprice, hparen, Int.natCast_natAbs]
  simp only [List.append_assoc]
  rw [← List.append_assoc (lit " seat"), hplural, hparen]

/-- C13 fails as stated: for a booking without seats the seat_summary cell is
empty, where the stated format gives "0 seats:  (₦0)". -/
theorem export_empty_summary :
    bookingAl.seats = some [] ∧
    seatsSummary plainNumber bookingAl = [] ∧
    specSeatSummary plainNumber bookingAl = lit "0 seats:  (₦0)" ∧
    exportBookingsCSV plainNumber ⟨some [bookingAl], none⟩ = some (lit
      "id,name,from,to,depart,return,class,passengers,price,seats,seat_summary,email\n\"2000\",\"Al\",\"Lagos\",\"Dubai\",\"2025-12-29\",\"2026-01-05\",\"business\",\"2\",\"800\",\"\",\"\",\"al@example.com\"") := by
  decide!

/-- C13, amended: for a non-empty booking list the exported text is the header
line followed, for each booking in list order, by a line break and the booking's
row; the row is the twelve values, in the order of the header, each wrapped in
double quotes with its double quotes doubled, separated by commas; the seats cell
is the labels joined with "|"; the seat summary is empty for a booking without
seats and otherwise, for a class that is not the name of an `Object.prototype`
member, it reads "n seat(s): labels joined with ', ' (₦total)" with the total the
per-seat price of the class times n as the locale writes it; for seats 2C, 2D in
economy the seats cell is 2C|2D and, where the locale writes 100 as "100", the
summary is 2 seats: 2C, 2D (₦100). -/
theorem export_csv (fmt : Option ℚ → JSString) (ls : LocalStorage)
    (hne : loadBookings ls ≠ []) :
    exportBookingsCSV fmt ls = some
      (lit "id,name,from,to,depart,return,class,passengers,price,seats,seat_summary,email" ++
        (loadBookings ls).flatMap (fun b =>
          10 :: joinWith [44] ((csvRowValues fmt b).map csvCell))) ∧
    (∀ b : Booking, List.zip csvHeader (csvRowValues fmt b) =
      [(lit "id", numberToString b.id), (lit "name", stringOf b.name),
       (lit "from", stringOf b.from_), (lit "to", stringOf b.to_),
       (lit "depart", stringOf b.depart), (lit "return", b.return_.getD []),
       (lit "class", stringOf b.klass),
       (lit "passengers", (b.passengers.map numberToString).getD (lit "undefined")),
       (lit "price", (b.price.map numberToString).getD (lit "null")),
       (lit "seats", joinWith [124] (b.seats.getD [])),
       (lit "seat_summary", seatsSummary fmt b), (lit "email", stringOf b.email)]) ∧
    (∀ v : JSString, csvCell v =
      [34] ++ (v.flatMap fun u => if u = 34 then [34, 34] else [u]) ++ [34]) ∧
    (∀ b : Booking, b.seats.getD [] = [] → seatsSummary fmt b = []) ∧
    (∀ b : Booking, b.seats.getD [] ≠ [] → stringOf b.klass ∉ objectPrototypeKeys →
      seatsSummary fmt b = specSeatSummary fmt b) ∧
    (∀ b : Booking, b.seats = some [lit "2C", lit "2D"] → b.klass = some (lit "economy") →
      seatsCell b = lit "2C|2D" ∧
      (fmt (some 100) = lit "100" → seatsSummary fmt b = lit "2 seats: 2C, 2D (₦100)")) := by
  have hcomma : lit "," = [44] := by decide
  have hbar : lit "|" = [124] := by decide
  have hnl : lit "\n" = [10] := by decide
  refine ⟨?_, ?_, ?_, ?_, ?_, ?_⟩
  · have hlen : (loadBookings ls).length ≠ 0 := by
      simpa [List.length_eq_zero] using hne
    have hhead : joinWith [44] csvHeader = lit
        "id,name,from,to,depart,return,class,passengers,price,seats,seat_summary,email" := by
      decide
    simp only [exportBookingsCSV, hlen, if_false, foldl_push, hcomma, hnl]
    rw [List.singleton_append, joinWith_cons, hhead, List.flatMap_map]
    rfl
  · intro b
    cases hp : b.passengers <;> cases hq : b.price <;> cases hr : b.return_ with
    | none => simp [csvRowValues, csvHeader, hp, hq, hr, strOr, seatsCell, hbar]
    | some r =>
      cases r <;> simp [csvRowValues, csvHeader, hp, hq, hr, strOr, seatsCell, hbar]
  · intro v
    simp [csvCell]
  · intro b hb
    simp [seatsSummary, hb]
  · intro b hs hk
    exact seatsSummary_eq_spec fmt b hs hk
  · intro b hs hk
    have hseats : b.seats.getD [] = [lit "2C", lit "2D"] := by rw [hs]; rfl
    refine ⟨?_, ?_⟩
    · rw [seatsCell, hseats]
      decide
    · intro hfmt
      have hkey : stringOf b.klass ∉ objectPrototypeKeys := by
        rw [hk]
        decide
      rw [seatsSummary_eq_spec fmt b (by rw [hseats]; simp) hkey]
      have hprice : specPerSeatPrice b.klass * ((b.seats.getD []).length : ℚ) = 100 := by
        rw [hk, hseats]
        have : specPerSeatPrice (some (lit "economy")) = 50 := by decide!
        rw [this]
        norm_num
      simp only [specSeatSummary, hprice, hfmt]
      rw [hseats]
      decide

theorem export_csv_witness :
    loadBookings ⟨some [bookingAl, bookingBea], none⟩ ≠ [] ∧
    plainNumber (some 100) = lit "100" ∧
    seatsSummary plainNumber bookingBea = lit "2 seats: 2C, 2D (₦100)" ∧
    exportBookingsCSV plainNumber ⟨some [bookingAl, bookingBea], none⟩ = some
      (lit "id,name,from,to,depart,return,class,passengers,price,seats,seat_summary,email" ++
        (loadBookings ⟨some [bookingAl, bookingBea], none⟩).flatMap (fun b =>
          10 :: joinWith [44] ((csvRowValues plainNumber b).map csvCell))) ∧
    exportBookingsCSV plainNumber ⟨some [bookingAl, bookingBea], none⟩ = some (lit
      "id,name,from,to,depart,return,class,passengers,price,seats,seat_summary,email\n\"2000\",\"Al\",\"Lagos\",\"Dubai\",\"2025-12-29\",\"2026-01-05\",\"business\",\"2\",\"800\",\"\",\"\",\"al@example.com\"\n\"3000\",\"Bea \"\"B\"\" Obi\",\"Enugu\",\"Accra\",\"2026-01-05\",\"\",\"economy\",\"1\",\"300\",\"2C|2D\",\"2 seats: 2C, 2D (₦100)\",\"bea@example.com\"") :=
  ⟨by decide, by decide!,
   ((export_csv plainNumber ⟨some [bookingAl, bookingBea], none⟩ (by decide)).2.2.2.2.2
      bookingBea rfl rfl).2 (by decide!),
   (export_csv plainNumber ⟨some [bookingAl, bookingBea], none⟩ (by decide)).1,
   by decide!⟩

/-! ## C14: stored text that is not a list -/

theorem parsed_notJSON (r : RawState) (h : r.aeroBookings = some StoredText.notJSON) :
    r.parsed = Except.error JSError.syntaxError := by
  simp [RawState.parsed, parseBookings, h, Except.map]

theorem parsed_of_parse (r : RawState) (l : List Booking)
    (h : parseBookings r.aeroBookings = Except.ok l) : r.parsed = Except.ok (r.withList l) := by
  simp [RawState.parsed, h, Except.map]

/-- C14 fails as stated: with text that is not JSON under `aeroBookings`, each
operation that loads the list ends with the `SyntaxError` thrown by
`JSON.parse`, where on an empty list it returns normally. -/
theorem corrupt_storage_raises :
    (renderBookingsListRaw corruptState []).toOption = none ∧
    renderBookingsListRaw corruptState [] = Except.error JSError.syntaxError ∧
    confirmBookingRaw corruptState sampleForm 3000 = Except.error JSError.syntaxError ∧
    saveEditBookingRaw corruptState sampleEdit [] = Except.error JSError.syntaxError ∧
    clearBookingRaw corruptState 1000 [] = Except.error JSError.syntaxError ∧
    exportBookingsCSVRaw plainNumber corruptState = Except.error JSError.syntaxError ∧
    getBookedSeatsRaw corruptState = Except.error JSError.syntaxError ∧
    renderSeatMapRaw corruptState 8 6 ⟨true, false⟩ (fun _ _ => false)
      = Except.error JSError.syntaxError ∧
    getBookedSeatsRaw { corruptState with aeroBookings := none } = Except.ok [] ∧
    exportBookingsCSVRaw plainNumber { corruptState with aeroBookings := none }
      = Except.ok none := by
  refine ⟨rfl, rfl, rfl, rfl, rfl, rfl, rfl, rfl, rfl, rfl⟩

/-- C14, amended: every operation that loads the list (list/search, create,
update, delete, export, booked-seat lookup, and the seat map when it marks booked
seats) reads an absent key or an empty stored text as the empty list, and the
text of a serialised list as that list, and then completes; on stored text that
is not JSON it ends with the `SyntaxError` of `JSON.parse`, before it has changed
anything.  The seat map rendered without marking booked seats does not load the
list and completes whatever is stored. -/
theorem load_outcomes (r : RawState) (filter search : JSString) (form : FormEntries) (now : ℕ)
    (e : EditForm) (id : ℕ) (fmt : Option ℚ → JSString) (R C : ℕ) (opts : SeatOpts)
    (coin : ℕ → ℕ → Bool) :
    (r.aeroBookings = none ∨ r.aeroBookings = some StoredText.emptyString →
      parseBookings r.aeroBookings = Except.ok []) ∧
    (∀ l, r.aeroBookings = some (StoredText.serialized l) →
      parseBookings r.aeroBookings = Except.ok l) ∧
    (∀ l, parseBookings r.aeroBookings = Except.ok l →
      renderBookingsListRaw r filter = Except.ok (renderBookingsList (r.withList l) filter) ∧
      confirmBookingRaw r form now = Except.ok (confirmBooking (r.withList l) form now) ∧
      saveEditBookingRaw r e search = Except.ok (saveEditBooking (r.withList l) e search) ∧
      clearBookingRaw r id search = Except.ok (clearBooking (r.withList l) id search) ∧
      exportBookingsCSVRaw fmt r = Except.ok (exportBookingsCSV fmt (r.withList l).localStorage) ∧
      getBookedSeatsRaw r = Except.ok (getBookedSeats (r.withList l).localStorage) ∧
      (opts.markBooked = true →
        renderSeatMapRaw r R C opts coin = Except.ok (renderSeatMap (r.withList l) R C opts coin))) ∧
    (r.aeroBookings = some StoredText.notJSON →
      renderBookingsListRaw r filter = Except.error JSError.syntaxError ∧
      confirmBookingRaw r form now = Except.error JSError.syntaxError ∧
      saveEditBookingRaw r e search = Except.error JSError.syntaxError ∧
      clearBookingRaw r id search = Except.error JSError.syntaxError ∧
      exportBookingsCSVRaw fmt r = Except.error JSError.syntaxError ∧
      getBookedSeatsRaw r = Except.error JSError.syntaxError ∧
      (opts.markBooked = true →
        renderSeatMapRaw r R C opts coin = Except.error JSError.syntaxError)) ∧
    (opts.markBooked = false → ∃ m, renderSeatMapRaw r R C opts coin = Except.ok m) := by
  refine ⟨?_, ?_, ?_, ?_, ?_⟩
  · rintro (h | h) <;> simp [parseBookings, h]
  · intro l h
    simp [parseBookings, h]
  · intro l h
    have hp := parsed_of_parse r l h
    refine ⟨?_, ?_, ?_, ?_, ?_, ?_, ?_⟩
    · simp [renderBookingsListRaw, hp, Except.map]
    · simp [confirmBookingRaw, hp, Except.map]
    · simp [saveEditBookingRaw, hp, Except.map]
    · simp [clearBookingRaw, hp, Except.map]
    · simp [exportBookingsCSVRaw, hp, Except.map]
    · simp [getBookedSeatsRaw, hp, Except.map]
    · intro hm
      simp [renderSeatMapRaw, hm, hp, Except.map]
  · intro h
    have hp := parsed_notJSON r h
    refine ⟨?_, ?_, ?_, ?_, ?_, ?_, ?_⟩
    · simp [renderBookingsListRaw, hp, Except.map]
    · simp [confirmBookingRaw, hp, Except.map]
    · simp [saveEditBookingRaw, hp, Except.map]
    · simp [clearBookingRaw, hp, Except.map]
    · simp [exportBookingsCSVRaw, hp, Except.map]
    · simp [getBookedSeatsRaw, hp, Except.map]
    · intro hm
      simp [renderSeatMapRaw, hm, hp, Except.map]
  · intro hm
    simp only [renderSeatMapRaw, hm, Bool.false_eq_true, if_false]
    exact ⟨_, rfl⟩

theorem load_outcomes_witness :
    corruptState.aeroBookings = some StoredText.notJSON ∧
    clearBookingRaw corruptState 1000 [] = Except.error JSError.syntaxError ∧
    parseBookings ({ corruptState with aeroBookings := some StoredText.emptyString } :
      RawState).aeroBookings = Except.ok [] :=
  ⟨rfl,
   ((load_outcomes corruptState [] [] sampleForm 3000 sampleEdit 1000 plainNumber 8 6
      ⟨true, false⟩ (fun _ _ => false)).2.2.2.1 rfl).2.2.2.1,
   (load_outcomes { corruptState with aeroBookings := some StoredText.emptyString } [] []
      sampleForm 3000 sampleEdit 1000 plainNumber 8 6 ⟨true, false⟩ (fun _ _ => false)).1
      (Or.inr rfl)⟩

end AeroTrust
